import Mathlib

/-!
Verification development for the laboratory QC data-grid store.

The definitions below are a shallow embedding of the TypeScript source:

* `src/stores/dataTableStore.ts` — the reactive store: payload data model,
  row/cell lookup caches, the mutation API (`setCellValue`,
  `markResultCellFinal`, `clearResultCell`, `setManualCorrection`), the
  batching controller (`startBatch`/`endBatch`) and the column filter
  pipeline (`filteredColumns`).
* `src/composables/useAsyncOperation.ts` (cell-formatters composable) — the
  conditional-formatting engine `getResultCellFormattingClass` with its
  variance matching rules and threshold tables.

Modelling conventions:

* JavaScript `string | number | null` cell values become `Option JSVal`;
  `null`/`undefined` are `none`.  IEEE doubles are idealised as `ℚ`; the
  only JS float behaviour the formatting code depends on beyond field
  arithmetic is division by zero, which is modelled explicitly by
  `VarianceVal` (`inf`/`nan`).
* `parseFloat` is modelled by `parseDec`, a plain decimal parser (optional
  sign, digits, optional fraction).  The source only ever parses numbers
  or plain decimal strings, so exotic `parseFloat` inputs (exponents,
  trailing garbage, whitespace) are outside the model.
* `String.prototype.toUpperCase`/`endsWith`/`slice(0,-2)` are modelled by
  `jsToUpper`/`jsEndsWith`/`jsDropRight`, which compute on the character
  list (ASCII case mapping, which covers every string the source compares).
* Vue reactivity: the store's single `triggerRef(data)` invalidation signal
  is modelled by a `triggerCount` counter, and the laziness of the
  `rowMap`/`cellMap` computed properties by a `mapsDirty` flag which a read
  clears by running the rebuild pass (`recomputeMaps`).
* Object identity: row and cell objects are shared by reference between
  the payload and the store's caches, so mutating them in place is visible
  through every alias.  The model therefore keeps the authoritative
  contents in the payload and represents `rowMapCache` by its key set and
  `cellMapCache` by per-row key lists; a cache hit reads content from the
  payload.  States whose caches mention rows absent from the current
  payload (reachable only across a dataset reload) are outside the model;
  the modelled operation set contains no reload.
* Array reference identity (needed for the filtered-columns memo contract)
  is modelled by tagging each freshly built array with a generation number
  from an allocator (`nextArrayId`); reference equality is tag equality.
-/

namespace DataGrid

/-- A JavaScript `string | number` value (`null` is `Option.none` around it). -/
inductive JSVal
  | num (q : ℚ)
  | str (s : String)
deriving DecidableEq, Repr

/-- ASCII upper-casing of one character (`String.prototype.toUpperCase`,
restricted to the ASCII letters the source compares). -/
def upChar (c : Char) : Char :=
  if 'a' ≤ c ∧ c ≤ 'z' then Char.ofNat (c.toNat - 32) else c

/-- `String.prototype.toUpperCase` on the character list. -/
def jsToUpper (s : String) : String := ⟨s.data.map upChar⟩

/-- `String.prototype.endsWith`. -/
def jsEndsWith (s tail : String) : Bool := tail.data.isSuffixOf s.data

/-- `String.prototype.slice(0, -n)`: drop the last `n` characters. -/
def jsDropRight (s : String) (n : Nat) : String :=
  ⟨s.data.take (s.data.length - n)⟩

/-- Numeric value of a digit list (most significant first). -/
def digitsVal (cs : List Char) : Nat :=
  cs.foldl (fun a c => a * 10 + (c.toNat - 48)) 0

/-- Unsigned decimal parse: digits, optionally followed by a point and a
fraction; anything else is a parse failure (JS `NaN`, modelled `none`). -/
def parseUnsignedDec (cs : List Char) : Option ℚ :=
  let ip := cs.takeWhile (fun c => c.isDigit)
  let rest := cs.dropWhile (fun c => c.isDigit)
  match rest with
  | [] => if ip.isEmpty then none else some (digitsVal ip : ℚ)
  | '.' :: fr =>
    if fr.all (fun c => c.isDigit) && !(ip.isEmpty && fr.isEmpty) then
      some ((digitsVal ip : ℚ) + (digitsVal fr : ℚ) / (10 ^ fr.length : ℚ))
    else none
  | _ => none

/-- `parseFloat` on a string: optional sign then an unsigned decimal. -/
def parseDec (s : String) : Option ℚ :=
  match s.data with
  | '-' :: cs => (parseUnsignedDec cs).map (fun q => -q)
  | '+' :: cs => parseUnsignedDec cs
  | cs => parseUnsignedDec cs

/-- `parseFloat` applied to a `string | number | null` value;
`none` is JS `NaN`. -/
def parseFloatV : Option JSVal → Option ℚ
  | some (JSVal.num q) => some q
  | some (JSVal.str s) => parseDec s
  | none => none

/-- The source's recurring "has no value" test: `v === null || v === ''`. -/
def isEmptyVal : Option JSVal → Bool
  | none => true
  | some (JSVal.str "") => true
  | some _ => false

/-- `CellValue` from `types/index.ts`: one sparse cell entry.
Optional JS fields are `Option`s (`undefined` is `none`);
`markedFinalAt` keeps the store clock value instead of an ISO string. -/
structure CellValue where
  columnIndex : Nat
  value : Option JSVal := none
  isFinal : Option Bool := none
  copiedFrom : Option String := none
  markedFinalAt : Option Nat := none
  baselineCorrection : Option ℚ := none
  multiplier : Option ℚ := none
  originalValue : Option ℚ := none
deriving DecidableEq, Repr

/-- `RowData` from `types/index.ts`: the five static fields plus the sparse
`values` list. -/
structure RowData where
  rowIndex : Nat
  seqNo : Int
  sampleName : String
  sampleCode : Nat := 0
  travelerNo : String
  materialType : String := ""
  controlType : String
  values : List CellValue
deriving DecidableEq, Repr

/-- `ColumnType` from `types/index.ts`. -/
inductive ColumnType
  | static | rawdata | correction | result
deriving DecidableEq, Repr

/-- `ColumnDefinition` from `types/index.ts` (the fields the modelled code
reads; `correctionType` is kept as a plain optional string). -/
structure ColumnDefinition where
  columnIndex : Nat
  columnKey : String := ""
  serviceItemIndex : Int
  analyteIndex : Int
  columnType : ColumnType
  label : String := ""
  wavelength : Option String := none
  isSelected : Option Bool := none
  correctionType : Option String := none
deriving DecidableEq, Repr

/-- `AnalyteSchema` (the fields the modelled code reads). -/
structure AnalyteSchema where
  analyteIndex : Int
  code : String := ""
  name : String := ""
  serviceItemIndex : Int := -1
  lowerLimit : String := ""
  upperLimit : String := ""
  unit : String := ""
  reportable : Bool
deriving DecidableEq, Repr

/-- `ServiceItemSchema` (the fields the modelled code reads). -/
structure ServiceItemSchema where
  siIndex : Int
  code : String := ""
  name : String := ""
deriving DecidableEq, Repr

/-- `Schema` from `types/index.ts`. -/
structure Schema where
  serviceItems : List ServiceItemSchema := []
  analytes : List AnalyteSchema := []
  columnDefinitions : List ColumnDefinition := []
deriving DecidableEq, Repr

/-- `Metadata` (job details are never read by the modelled code and are
omitted). -/
structure Metadata where
  schema : Schema
deriving DecidableEq, Repr

/-- `OptimizedDataTablePayload`. -/
structure OptimizedDataTablePayload where
  metadata : Metadata
  rows : List RowData
deriving DecidableEq, Repr

/-- `STATIC_COLUMN_COUNT` from `types/index.ts`. -/
def STATIC_COLUMN_COUNT : Nat := 5

/-- Look up a cell in a row's sparse `values` list
(`row.values.find(c => c.columnIndex === columnIndex)`). -/
def findCell (row : RowData) (columnIndex : Nat) : Option CellValue :=
  row.values.find? (fun cell => cell.columnIndex == columnIndex)

/-- The column indices present in a row's sparse `values` list. -/
def valueKeys (row : RowData) : List Nat :=
  row.values.map (fun cell => cell.columnIndex)

/-! ## Conditional formatting / variance engine
(cell-formatters composable in `useAsyncOperation.ts`) -/

/-- One `{ high, medium }` threshold pair. -/
structure Thresholds where
  high : ℚ
  medium : ℚ
deriving DecidableEq, Repr

/-- The three independently configured threshold tables. -/
structure VarianceThresholdTable where
  DUP : Thresholds
  PRD : Thresholds
  CRD : Thresholds
deriving DecidableEq, Repr

/-- `VARIANCE_THRESHOLDS` constant from the source. -/
def VARIANCE_THRESHOLDS : VarianceThresholdTable :=
  { DUP := { high := 20, medium := 10 }
    PRD := { high := 20, medium := 10 }
    CRD := { high := 20, medium := 10 } }

/-- Result of a JS variance computation: a finite number, `Infinity`
(division of a nonzero numerator by zero), or `NaN` (`0 / 0`). -/
inductive VarianceVal
  | fin (q : ℚ)
  | inf
  | nan
deriving DecidableEq, Repr

/-- JS `>` on variance values (`NaN` compares false on either side). -/
def jsGt : VarianceVal → VarianceVal → Bool
  | VarianceVal.nan, _ => false
  | _, VarianceVal.nan => false
  | VarianceVal.inf, VarianceVal.inf => false
  | VarianceVal.inf, VarianceVal.fin _ => true
  | VarianceVal.fin _, VarianceVal.inf => false
  | VarianceVal.fin a, VarianceVal.fin b => decide (b < a)

/-- `Math.abs(x - y) / denom * 100` with JS division-by-zero semantics. -/
def jsVariance (x y denom : ℚ) : VarianceVal :=
  if denom = 0 then (if x = y then VarianceVal.nan else VarianceVal.inf)
  else VarianceVal.fin (|x - y| / denom * 100)

/-- Upper-cased control type of a row
(`(r.controlType || '').toString().toUpperCase()`). -/
def upperCT (r : RowData) : String := jsToUpper r.controlType

/-- Sibling rows matched for an ORIGINAL row: REJECTDUP/PULPDUP control type
and same traveler number, then the `-R` / `-X` sample-name pattern
(inlined in `getResultCellFormattingClass`). -/
def matchingRowsOriginal (rows : List RowData) (row : RowData) : List RowData :=
  let originalSampleName := row.sampleName
  let originalTravelerNo := row.travelerNo
  let allDupCandidates := rows.filter (fun r =>
    (upperCT r == "REJECTDUP" || upperCT r == "PULPDUP") &&
      r.travelerNo == originalTravelerNo)
  allDupCandidates.filter (fun r =>
    r.sampleName == originalSampleName ++ "-R" ||
    r.sampleName == originalSampleName ++ "-X")

/-- Sibling rows matched for a REJECTDUP/PULPDUP row: strip the `-R`/`-X`
suffix and match ORIGINAL rows with that sample name and the same traveler
number (inlined in `getResultCellFormattingClass`). -/
def matchingRowsDup (rows : List RowData) (row : RowData) : List RowData :=
  let dupSampleName := row.sampleName
  let dupTravelerNo := row.travelerNo
  let originalSampleName :=
    if jsEndsWith dupSampleName "-R" then jsDropRight dupSampleName 2
    else if jsEndsWith dupSampleName "-X" then jsDropRight dupSampleName 2
    else ""
  if originalSampleName == "" then []
  else rows.filter (fun r =>
    upperCT r == "ORIGINAL" && r.travelerNo == dupTravelerNo &&
      r.sampleName == originalSampleName)

/-- Sibling rows matched by control type, traveler number and sequence
number (the ORGCRD/CRD and ORGPRD/PRD rules, inlined in
`getResultCellFormattingClass`). -/
def matchingRowsSeq (rows : List RowData) (row : RowData)
    (controlType : String) (seqNo : Int) : List RowData :=
  rows.filter (fun r =>
    upperCT r == controlType && r.travelerNo == row.travelerNo &&
      r.seqNo == seqNo)

/-- The per-sibling value extraction inside the variance loops: the cell at
the result column, skipped when absent, null, empty, or unparseable. -/
def sibParsedValue (mr : RowData) (columnIndex : Nat) : Option ℚ :=
  match (findCell mr columnIndex).bind (fun cell => cell.value) with
  | none => none
  | some v => if v == JSVal.str "" then none else parseFloatV (some v)

/-- The source's highest-variance loop: fold over the matched siblings'
parsed values, replacing the accumulator when the new variance compares
greater (JS `>`), starting from `0`. -/
def trackHighest (f : ℚ → VarianceVal) (vals : List (Option ℚ)) : VarianceVal :=
  vals.foldl (fun highestVariance v? =>
    match v? with
    | none => highestVariance
    | some v =>
      let variance := f v
      if jsGt variance highestVariance then variance else highestVariance)
    (VarianceVal.fin 0)

/-- `getAnalyteProperties` from the cell-formatters composable. -/
def getAnalyteProperties (p : OptimizedDataTablePayload)
    (col : ColumnDefinition) : Option (String × String × String) :=
  if col.analyteIndex < 0 then none
  else
    match p.metadata.schema.analytes.find?
        (fun a => a.analyteIndex == col.analyteIndex) with
    | none => none
    | some a => some (a.lowerLimit, a.upperLimit, a.unit)

/-- The CRM branch of `getResultCellFormattingClass`: limits comparison. -/
def crmClass (p : OptimizedDataTablePayload) (column : ColumnDefinition)
    (cellValue : Option JSVal) : String :=
  match getAnalyteProperties p column with
  | none => ""
  | some (lowerLimitS, upperLimitS, _) =>
    if isEmptyVal cellValue then ""
    else
      match parseFloatV cellValue with
      | none => ""
      | some numValue =>
        let lowerLimit := if lowerLimitS == "" then none else parseDec lowerLimitS
        let upperLimit := if upperLimitS == "" then none else parseDec upperLimitS
        match lowerLimit, upperLimit with
        | some l, some u =>
          if numValue < l then "cell-below-limit"
          else if u < numValue then "cell-above-limit"
          else if l ≤ numValue ∧ numValue ≤ u then "cell-within-limit"
          else ""
        | some l, none => if numValue < l then "cell-below-limit" else ""
        | none, some u => if u < numValue then "cell-above-limit" else ""
        | none, none => ""

/-- `getResultCellFormattingClass` from the cell-formatters composable:
dispatch on the row's upper-cased control type; CRM rows classify against
analyte limits, the variance families against matched sibling rows. -/
def getResultCellFormattingClass (data : Option OptimizedDataTablePayload)
    (column : ColumnDefinition) (cellValue : Option JSVal)
    (rowIndex : Option Nat) : String :=
  if column.columnType != ColumnType.result then ""
  else
    match rowIndex, data with
    | some ri, some p =>
      (match p.rows.find? (fun r => r.rowIndex == ri) with
      | none => ""
      | some row =>
        let controlType := upperCT row
        if controlType == "CRM" then crmClass p column cellValue
        else if controlType == "ORIGINAL" || controlType == "ORGCRD" ||
            controlType == "ORGPRD" then
          match parseFloatV cellValue with
          | none => ""
          | some numOriginalValue =>
            let matchingRows :=
              if controlType == "ORIGINAL" then matchingRowsOriginal p.rows row
              else if controlType == "ORGCRD" then
                matchingRowsSeq p.rows row "CRD" (row.seqNo + 1)
              else matchingRowsSeq p.rows row "PRD" (row.seqNo + 1)
            let highestVariance :=
              trackHighest (fun dv => jsVariance numOriginalValue dv numOriginalValue)
                (matchingRows.map (fun mr => sibParsedValue mr column.columnIndex))
            let thresholds :=
              if controlType == "ORIGINAL" then VARIANCE_THRESHOLDS.DUP
              else if controlType == "ORGPRD" then VARIANCE_THRESHOLDS.PRD
              else VARIANCE_THRESHOLDS.CRD
            let classPfx :=
              if controlType == "ORIGINAL" then "cell-variance-dup"
              else if controlType == "ORGPRD" then "cell-variance-prd"
              else "cell-variance-crd"
            if jsGt highestVariance (VarianceVal.fin thresholds.high) then
              classPfx ++ "-high"
            else if jsGt highestVariance (VarianceVal.fin thresholds.medium) then
              classPfx ++ "-medium"
            else ""
        else if controlType == "REJECTDUP" || controlType == "PULPDUP" ||
            controlType == "CRD" || controlType == "PRD" then
          match parseFloatV cellValue with
          | none => ""
          | some numDuplicateValue =>
            let matchingRows :=
              if controlType == "REJECTDUP" || controlType == "PULPDUP" then
                matchingRowsDup p.rows row
              else if controlType == "CRD" then
                matchingRowsSeq p.rows row "ORGCRD" (row.seqNo - 1)
              else matchingRowsSeq p.rows row "ORGPRD" (row.seqNo - 1)
            let highestVariance :=
              trackHighest (fun ov => jsVariance numDuplicateValue ov ov)
                (matchingRows.map (fun mr => sibParsedValue mr column.columnIndex))
            let thresholds :=
              if controlType == "REJECTDUP" || controlType == "PULPDUP" then
                VARIANCE_THRESHOLDS.DUP
              else if controlType == "PRD" then VARIANCE_THRESHOLDS.PRD
              else VARIANCE_THRESHOLDS.CRD
            let classPfx :=
              if controlType == "REJECTDUP" || controlType == "PULPDUP" then
                "cell-variance-dup"
              else if controlType == "PRD" then "cell-variance-prd"
              else "cell-variance-crd"
            if jsGt highestVariance (VarianceVal.fin thresholds.high) then
              classPfx ++ "-high"
            else if jsGt highestVariance (VarianceVal.fin thresholds.medium) then
              classPfx ++ "-medium"
            else ""
        else "")
    | _, _ => ""

/-! ### Variance classifier restated from the specification's wording

These definitions follow the spec sentence for claim C3 ("for every matching
sibling row, compute a variance, retain the maximum across all matches, then
classify by the per-family threshold table"), parameterised by which value
normalises the variance on the duplicate side, so the source classifier can
be compared against both the claimed and the actual normalisation. -/

/-- Forget `NaN` and embed a variance into `WithTop ℚ` (`Infinity` is `⊤`). -/
def toWTop : VarianceVal → Option (WithTop ℚ)
  | VarianceVal.fin q => some (q : WithTop ℚ)
  | VarianceVal.inf => some ⊤
  | VarianceVal.nan => none

/-- "The maximum variance across all matches" (at least `0`, matching the
source's accumulator start). -/
def maxVarianceW (l : List (WithTop ℚ)) : WithTop ℚ :=
  l.foldl max ((0 : ℚ) : WithTop ℚ)

/-- "high > 20%, medium > 10% and ≤ 20%, else none" against a threshold
pair. -/
def classifyByThreshold (w : WithTop ℚ) (t : Thresholds) (pfx : String) : String :=
  if ((t.high : ℚ) : WithTop ℚ) < w then pfx ++ "-high"
  else if ((t.medium : ℚ) : WithTop ℚ) < w then pfx ++ "-medium"
  else ""

/-- The list of variances of the matched siblings (`NaN` contributes
nothing, as in the source loop). -/
def specVariances (rows : List RowData) (columnIndex : Nat)
    (f : ℚ → VarianceVal) : List (WithTop ℚ) :=
  (rows.map (fun mr => sibParsedValue mr columnIndex)).filterMap
    (fun v? => v?.bind (fun v => toWTop (f v)))

/-- Variance classification as the spec phrases it, for the seven
variance-matched control types.  `normalizeBySelf = true` divides every
variance by the classified row's own value (the claimed behaviour);
`normalizeBySelf = false` divides, on the REJECTDUP/PULPDUP/CRD/PRD side,
by the matched sibling's value instead. -/
def varianceClassSpec (normalizeBySelf : Bool)
    (data : Option OptimizedDataTablePayload) (column : ColumnDefinition)
    (cellValue : Option JSVal) (rowIndex : Option Nat) : String :=
  if column.columnType != ColumnType.result then ""
  else
    match rowIndex, data with
    | some ri, some p =>
      (match p.rows.find? (fun r => r.rowIndex == ri) with
      | none => ""
      | some row =>
        let ct := upperCT row
        match parseFloatV cellValue with
        | none => ""
        | some thisValue =>
          let pick :
              Option (List RowData × (ℚ → VarianceVal) × Thresholds × String) :=
            if ct == "ORIGINAL" then
              some (matchingRowsOriginal p.rows row,
                fun sib => jsVariance thisValue sib thisValue,
                VARIANCE_THRESHOLDS.DUP, "cell-variance-dup")
            else if ct == "ORGCRD" then
              some (matchingRowsSeq p.rows row "CRD" (row.seqNo + 1),
                fun sib => jsVariance thisValue sib thisValue,
                VARIANCE_THRESHOLDS.CRD, "cell-variance-crd")
            else if ct == "ORGPRD" then
              some (matchingRowsSeq p.rows row "PRD" (row.seqNo + 1),
                fun sib => jsVariance thisValue sib thisValue,
                VARIANCE_THRESHOLDS.PRD, "cell-variance-prd")
            else if ct == "REJECTDUP" || ct == "PULPDUP" then
              some (matchingRowsDup p.rows row,
                fun sib => jsVariance thisValue sib
                  (if normalizeBySelf then thisValue else sib),
                VARIANCE_THRESHOLDS.DUP, "cell-variance-dup")
            else if ct == "CRD" then
              some (matchingRowsSeq p.rows row "ORGCRD" (row.seqNo - 1),
                fun sib => jsVariance thisValue sib
                  (if normalizeBySelf then thisValue else sib),
                VARIANCE_THRESHOLDS.CRD, "cell-variance-crd")
            else if ct == "PRD" then
              some (matchingRowsSeq p.rows row "ORGPRD" (row.seqNo - 1),
                fun sib => jsVariance thisValue sib
                  (if normalizeBySelf then thisValue else sib),
                VARIANCE_THRESHOLDS.PRD, "cell-variance-prd")
            else none
          match pick with
          | none => ""
          | some (sibs, f, t, pfx) =>
            classifyByThreshold
              (maxVarianceW (specVariances sibs column.columnIndex f)) t pfx)
    | _, _ => ""

/-! ## Store state (`dataTableStore.ts`) -/

/-- `ViewMode` from the store. -/
inductive ViewMode
  | qc | report | customer
deriving DecidableEq, Repr

/-- The string the view mode contributes to the filter cache key. -/
def viewModeKey : ViewMode → String
  | ViewMode.qc => "qc"
  | ViewMode.report => "report"
  | ViewMode.customer => "customer"

/-- Insertion-ordered set insert on a key list (`Set.prototype.add`). -/
def addToSet (l : List Nat) (x : Nat) : List Nat :=
  if x ∈ l then l else l ++ [x]

/-- `cellMapCache.get(rowIndex)`, as the cached key list of that row
(the cell objects themselves are shared with the payload). -/
def lookupCellKeys (m : List (Nat × List Nat)) (r : Nat) : Option (List Nat) :=
  (m.find? (fun e => e.1 == r)).map (fun e => e.2)

/-- Store a per-row key list only when the row has no entry yet
(the mutation-side "build the row cell map if missing" step). -/
def ensureCellKeys (m : List (Nat × List Nat)) (r : Nat) (ks : List Nat) :
    List (Nat × List Nat) :=
  if (m.find? (fun e => e.1 == r)).isSome then m else m ++ [(r, ks)]

/-- Replace a per-row key list (the rebuild step of the `cellMap`
computed property). -/
def setCellKeys (m : List (Nat × List Nat)) (r : Nat) (ks : List Nat) :
    List (Nat × List Nat) :=
  if (m.find? (fun e => e.1 == r)).isSome then
    m.map (fun e => if e.1 == r then (e.1, ks) else e)
  else m ++ [(r, ks)]

/-- `rowCellMap.set(columnIndex, cell)` on a cached row: add the key. -/
def addCellKey (m : List (Nat × List Nat)) (r c : Nat) : List (Nat × List Nat) :=
  m.map (fun e => if e.1 == r then (e.1, addToSet e.2 c) else e)

/-- `rowCellMap.delete(columnIndex)` on a cached row: remove the key. -/
def removeCellKey (m : List (Nat × List Nat)) (r c : Nat) : List (Nat × List Nat) :=
  m.map (fun e => if e.1 == r then (e.1, e.2.filter (fun k => k != c)) else e)

/-- The whole store state.  `data` carries a reference tag next to the
payload (`shallowRef` identity); `triggerCount` counts the
`triggerRef(data)` invalidation signals; `mapsDirty` records whether the
`rowMap`/`cellMap` computed properties must rebuild on the next read;
`now` is the wall clock read by `markResultCellFinal`. -/
structure StoreState where
  data : Option (Nat × OptimizedDataTablePayload) := none
  hasUnsavedChanges : Bool := false
  changedRowIndices : List Nat := []
  isBatching : Bool := false
  batchChangedRows : List Nat := []
  rowMapCache : List Nat := []
  cellMapCache : List (Nat × List Nat) := []
  lastDataRefForMaps : Option Nat := none
  mapsDirty : Bool := true
  triggerCount : Nat := 0
  now : Nat := 0
  selectedServiceItemIndex : Option Int := none
  showReportableOnly : Bool := true
  viewMode : ViewMode := ViewMode.qc
  filteredColumnsCache : List ColumnDefinition := []
  filteredColumnsCacheId : Nat := 0
  filteredColumnsCacheKey : String := ""
  lastDataRefForColumns : Option Nat := none
  nextArrayId : Nat := 1
deriving DecidableEq, Repr

/-- The store state right after a dataset load (`loadData` with embedded
data): fresh caches, computed properties not yet evaluated. -/
def mkLoadedState (p : OptimizedDataTablePayload) : StoreState :=
  { data := some (0, p) }

/-- The key list the mutation functions obtain for a row: the cached list
when present, otherwise one freshly built from the row's sparse values. -/
def cellKeysFor (s : StoreState) (r : Nat) (row : RowData) : List Nat :=
  match lookupCellKeys s.cellMapCache r with
  | some ks => ks
  | none => valueKeys row

/-- In-place mutation of the row with a given index (row objects are
unique per `rowIndex` in a well-formed payload and shared by reference, so
patching the payload models patching the object). -/
def updateRow (p : OptimizedDataTablePayload) (r : Nat)
    (f : RowData → RowData) : OptimizedDataTablePayload :=
  { p with rows := p.rows.map (fun row => if row.rowIndex == r then f row else row) }

/-- In-place mutation of the first cell with a given column index in a
sparse values list (the object the cell-map cache points at). -/
def updateFirstCell : List CellValue → Nat → (CellValue → CellValue) → List CellValue
  | [], _, _ => []
  | cell :: rest, c, f =>
    if cell.columnIndex == c then f cell :: rest
    else cell :: updateFirstCell rest c f

/-- The notification tail shared by every mutation: during a batch the row
index goes to the pending set; otherwise it goes to `changedRowIndices` and
`triggerRef(data)` fires (computed properties become dirty, one signal). -/
def notifyRowChanged (s : StoreState) (rowIndex : Nat) : StoreState :=
  if s.isBatching then
    { s with batchChangedRows := addToSet s.batchChangedRows rowIndex }
  else
    { s with changedRowIndices := addToSet s.changedRowIndices rowIndex,
             mapsDirty := true,
             triggerCount := s.triggerCount + 1 }

/-- The rebuild pass of the `rowMap`/`cellMap` computed properties, run when
a read finds them dirty: clear the caches if the data reference changed,
then rebuild each row's entry when its index is in `changedRowIndices` or
missing from the cache, reusing the cached entry otherwise. -/
def recomputeMaps (s : StoreState) : StoreState :=
  if !s.mapsDirty then s
  else
    match s.data with
    | none =>
      { s with rowMapCache := [], cellMapCache := [],
               lastDataRefForMaps := none, mapsDirty := false }
    | some (ref, p) =>
      let s1 :=
        if s.lastDataRefForMaps == some ref then s
        else { s with rowMapCache := [], cellMapCache := [],
                      lastDataRefForMaps := some ref }
      let rmc := p.rows.foldl (fun acc row => addToSet acc row.rowIndex) s1.rowMapCache
      let cmc := p.rows.foldl (fun acc row =>
        if s.changedRowIndices.contains row.rowIndex ||
            (lookupCellKeys acc row.rowIndex).isNone then
          setCellKeys acc row.rowIndex (valueKeys row)
        else acc) s1.cellMapCache
      { s1 with rowMapCache := rmc, cellMapCache := cmc, mapsDirty := false }

/-- `getCellValue(row, columnIndex)` on a state whose computed maps are
clean: static columns read the row fields, dynamic columns go through the
cached per-row cell map. -/
def getCellValueClean (s : StoreState) (row : RowData) (columnIndex : Nat) :
    Option JSVal :=
  if columnIndex < STATIC_COLUMN_COUNT then
    match columnIndex with
    | 0 => some (JSVal.num (row.seqNo : ℚ))
    | 1 => some (JSVal.str row.sampleName)
    | 2 => some (JSVal.str row.travelerNo)
    | 3 => some (JSVal.str row.materialType)
    | 4 => some (JSVal.str row.controlType)
    | _ => none
  else
    match lookupCellKeys s.cellMapCache row.rowIndex with
    | none => none
    | some ks =>
      if columnIndex ∈ ks then (findCell row columnIndex).bind (fun cell => cell.value)
      else none

/-- `getCellValueByIndex(rowIndex, columnIndex)`: a read through the
`rowMap`/`cellMap` computed properties.  Reading may rebuild the caches
(computed recomputation), so the updated state is returned as well. -/
def getCellValueByIndex (s : StoreState) (rowIndex columnIndex : Nat) :
    Option JSVal × StoreState :=
  match s.data with
  | none => (none, s)
  | some (_, p) =>
    let s1 := recomputeMaps s
    match p.rows.find? (fun row => row.rowIndex == rowIndex) with
    | none => (none, s1)
    | some row => (getCellValueClean s1 row columnIndex, s1)

/-- `setCellValue(rowIndex, columnIndex, value, sourceColumnCode?)`.
Mirrors the source exactly: an existing cell (per the cached key list) is
mutated in place; otherwise a new cell is pushed into the row's sparse
values WITHOUT adding its key to the cached cell map (the source's create
path has no `rowCellMap.set`). -/
def setCellValue (s : StoreState) (rowIndex columnIndex : Nat) (value : JSVal)
    (sourceColumnCode : Option String) : StoreState :=
  match s.data with
  | none => s
  | some (ref, p) =>
    match p.rows.find? (fun row => row.rowIndex == rowIndex) with
    | none => s
    | some row =>
      let keys := cellKeysFor s rowIndex row
      let p' :=
        if columnIndex ∈ keys then
          updateRow p rowIndex (fun rw =>
            { rw with values := updateFirstCell rw.values columnIndex (fun cell =>
                let cell := { cell with value := some value }
                match sourceColumnCode with
                | some src => { cell with copiedFrom := some src }
                | none => cell) })
        else
          updateRow p rowIndex (fun rw =>
            { rw with values := rw.values ++
                [{ columnIndex := columnIndex, value := some value,
                   copiedFrom := sourceColumnCode }] })
      let s1 := { s with data := some (ref, p'),
                         rowMapCache := addToSet s.rowMapCache rowIndex,
                         cellMapCache := ensureCellKeys s.cellMapCache rowIndex keys }
      let s2 := notifyRowChanged s1 rowIndex
      { s2 with hasUnsavedChanges := true }

/-- The cache-priming step shared by the branches of `markResultCellFinal`:
remember the row in `rowMapCache` and make sure `cellMapCache` has an entry
for it. -/
def markCachePrimed (s : StoreState) (rowIndex : Nat) (row : RowData) : StoreState :=
  { s with rowMapCache := addToSet s.rowMapCache rowIndex,
           cellMapCache := ensureCellKeys s.cellMapCache rowIndex (cellKeysFor s rowIndex row) }

/-- `markResultCellFinal(rowIndex, columnIndex)`.  A cell present in the
cached key list is marked final directly; otherwise the value is resolved
through `getCellValueByIndex` and, when null or empty, the call is a
silent no-op.  When the nested read rebuilt the row's cache entry, the
source's `rowCellMap.set` lands on the replaced (orphaned) map object, so
the live cache gains no key in that case. -/
def markResultCellFinal (s : StoreState) (rowIndex columnIndex : Nat) : StoreState :=
  match s.data with
  | none => s
  | some (ref, p) =>
    match p.rows.find? (fun row => row.rowIndex == rowIndex) with
    | none => s
    | some row =>
      let keys := cellKeysFor s rowIndex row
      let sCache := markCachePrimed s rowIndex row
      if columnIndex ∈ keys then
        let p' := updateRow p rowIndex (fun rw =>
          { rw with values := updateFirstCell rw.values columnIndex (fun cell =>
              { cell with isFinal := some true, markedFinalAt := some s.now }) })
        let s1 := { sCache with data := some (ref, p') }
        let s2 := notifyRowChanged s1 rowIndex
        { s2 with hasUnsavedChanges := true }
      else
        let rebuilt := s.mapsDirty &&
          (s.changedRowIndices.contains rowIndex ||
            !(s.lastDataRefForMaps == some ref))
        let res := getCellValueByIndex sCache rowIndex columnIndex
        let cellValue := res.1
        let s1 := res.2
        if isEmptyVal cellValue then s1
        else
          let p' := updateRow p rowIndex (fun rw =>
            { rw with values := rw.values ++
                [{ columnIndex := columnIndex, value := cellValue,
                   isFinal := some true, markedFinalAt := some s.now }] })
          let s2 := { s1 with data := some (ref, p'),
                              cellMapCache := if rebuilt then s1.cellMapCache
                                else addCellKey s1.cellMapCache rowIndex columnIndex }
          let s3 := notifyRowChanged s2 rowIndex
          { s3 with hasUnsavedChanges := true }

/-- `clearResultCell(rowIndex, columnIndex)`: remove the cell from the
row's sparse values and its key from the cached cell map. -/
def clearResultCell (s : StoreState) (rowIndex columnIndex : Nat) : StoreState :=
  match s.data with
  | none => s
  | some (ref, p) =>
    match p.rows.find? (fun row => row.rowIndex == rowIndex) with
    | none => s
    | some _row =>
      let p' := updateRow p rowIndex (fun rw =>
        { rw with values := rw.values.filter (fun cell => cell.columnIndex != columnIndex) })
      let s1 := { s with data := some (ref, p'),
                         rowMapCache := addToSet s.rowMapCache rowIndex,
                         cellMapCache := removeCellKey s.cellMapCache rowIndex columnIndex }
      let s2 := notifyRowChanged s1 rowIndex
      { s2 with hasUnsavedChanges := true }

/-- The cell transformation performed by `setManualCorrection`: store the
corrections passed in this call, snapshot `originalValue` on first
applicable use, then recompute the value from `originalValue` applying
ONLY the corrections passed in this call (mirrors the source, which never
re-reads the stored correction fields). -/
def applyManualCorrection (baselineCorrection multiplier : Option ℚ)
    (cell : CellValue) : CellValue :=
  let cell := match baselineCorrection with
    | some b => { cell with baselineCorrection := some b }
    | none => cell
  let cell := match multiplier with
    | some m => { cell with multiplier := some m }
    | none => cell
  let originalValue : Option JSVal := match cell.originalValue with
    | some q => some (JSVal.num q)
    | none => cell.value
  if baselineCorrection.isSome || multiplier.isSome then
    if isEmptyVal originalValue then cell
    else
      match parseFloatV originalValue with
      | none => cell
      | some q0 =>
        let cell := match cell.originalValue with
          | some _ => cell
          | none => { cell with originalValue := some q0 }
        let q1 := match baselineCorrection with
          | some b => q0 + b
          | none => q0
        let q2 := match multiplier with
          | some m => q1 * m
          | none => q1
        { cell with value := some (JSVal.num q2) }
  else cell

/-- `setManualCorrection(rowIndex, columnIndex, baseline?, multiplier?)`:
create the cell if absent (its key IS added to the cached cell map, unlike
`setCellValue`), then apply `applyManualCorrection`. -/
def setManualCorrection (s : StoreState) (rowIndex columnIndex : Nat)
    (baselineCorrection multiplier : Option ℚ) : StoreState :=
  match s.data with
  | none => s
  | some (ref, p) =>
    match p.rows.find? (fun row => row.rowIndex == rowIndex) with
    | none => s
    | some row =>
      let keys := cellKeysFor s rowIndex row
      if columnIndex ∈ keys then
        let p' := updateRow p rowIndex (fun rw =>
          { rw with values := (updateFirstCell rw.values columnIndex
              (applyManualCorrection baselineCorrection multiplier)) })
        let s1 := { s with data := some (ref, p'),
                           rowMapCache := addToSet s.rowMapCache rowIndex,
                           cellMapCache := ensureCellKeys s.cellMapCache rowIndex keys }
        let s2 := notifyRowChanged s1 rowIndex
        { s2 with hasUnsavedChanges := true }
      else
        let p' := updateRow p rowIndex (fun rw =>
          { rw with values := rw.values ++
              [applyManualCorrection baselineCorrection multiplier
                { columnIndex := columnIndex, value := none }] })
        let s1 := { s with data := some (ref, p'),
                           rowMapCache := addToSet s.rowMapCache rowIndex,
                           cellMapCache := addCellKey
                             (ensureCellKeys s.cellMapCache rowIndex keys)
                             rowIndex columnIndex }
        let s2 := notifyRowChanged s1 rowIndex
        { s2 with hasUnsavedChanges := true }

/-- `startBatch()`: enter batching, clear the pending set. -/
def startBatch (s : StoreState) : StoreState :=
  { s with isBatching := true, batchChangedRows := [] }

/-- `endBatch()`: leave batching, merge the pending set into
`changedRowIndices`, fire exactly one invalidation signal. -/
def endBatch (s : StoreState) : StoreState :=
  if !s.isBatching then s
  else
    { s with isBatching := false,
             changedRowIndices := s.batchChangedRows.foldl addToSet s.changedRowIndices,
             batchChangedRows := [],
             mapsDirty := true,
             triggerCount := s.triggerCount + 1 }

/-! ## Filter engine (`filteredColumns` and its memo cache) -/

/-- The five fixed static columns prepended by `allColumns`. -/
def staticColumnList : List ColumnDefinition :=
  [ { columnIndex := 0, columnKey := "seqNo", serviceItemIndex := -1,
      analyteIndex := -1, columnType := ColumnType.static, label := "Seq No" },
    { columnIndex := 1, columnKey := "sampleName", serviceItemIndex := -1,
      analyteIndex := -1, columnType := ColumnType.static, label := "Sample Name" },
    { columnIndex := 2, columnKey := "travelerNo", serviceItemIndex := -1,
      analyteIndex := -1, columnType := ColumnType.static, label := "Traveler No" },
    { columnIndex := 3, columnKey := "materialType", serviceItemIndex := -1,
      analyteIndex := -1, columnType := ColumnType.static, label := "Material Type" },
    { columnIndex := 4, columnKey := "controlType", serviceItemIndex := -1,
      analyteIndex := -1, columnType := ColumnType.static, label := "Control Type" } ]

/-- `allColumns`: the five static columns followed by the payload's
dynamic column definitions. -/
def allColumns (p : OptimizedDataTablePayload) : List ColumnDefinition :=
  staticColumnList ++ p.metadata.schema.columnDefinitions

/-- The analyte indices whose `reportable` flag is `true`. -/
def reportableAnalyteIndices (p : OptimizedDataTablePayload) : List Int :=
  (p.metadata.schema.analytes.filter (fun a => a.reportable)).map
    (fun a => a.analyteIndex)

/-- The report-mode stage of the column filter: static columns pass,
correction columns are dropped, rawdata columns are dropped exactly when
`isSelected === false`. -/
def reportStageKeep (col : ColumnDefinition) : Bool :=
  if col.columnIndex < STATIC_COLUMN_COUNT then true
  else if col.columnType == ColumnType.correction then false
  else if col.columnType == ColumnType.rawdata && col.isSelected == some false then false
  else true

/-- Filter stage 1 of `filteredColumns`: when a service item is selected,
keep its columns and the static columns. -/
def serviceItemStage (selectedServiceItemIndex : Option Int)
    (columns : List ColumnDefinition) : List ColumnDefinition :=
  match selectedServiceItemIndex with
  | some si => columns.filter (fun col =>
      col.serviceItemIndex == si || decide (col.columnIndex < STATIC_COLUMN_COUNT))
  | none => columns

/-- Filter stage 2 of `filteredColumns`: when `showReportableOnly` is on,
keep static columns and columns of reportable analytes. -/
def reportableStage (p : OptimizedDataTablePayload) (showReportableOnly : Bool)
    (columns : List ColumnDefinition) : List ColumnDefinition :=
  if showReportableOnly then
    columns.filter (fun col =>
      decide (col.columnIndex < STATIC_COLUMN_COUNT) ||
        (reportableAnalyteIndices p).contains col.analyteIndex)
  else columns

/-- Filter stage 3 of `filteredColumns`: report view drops correction
columns and deselected rawdata columns. -/
def viewModeStage (viewMode : ViewMode) (columns : List ColumnDefinition) :
    List ColumnDefinition :=
  if viewMode == ViewMode.report then columns.filter reportStageKeep
  else columns

/-- The three-stage column filter pipeline of `filteredColumns`, applied in
source order (service-item stage, reportable stage, view-mode stage). -/
def computeFilteredColumns (p : OptimizedDataTablePayload)
    (selectedServiceItemIndex : Option Int) (showReportableOnly : Bool)
    (viewMode : ViewMode) : List ColumnDefinition :=
  viewModeStage viewMode
    (reportableStage p showReportableOnly
      (serviceItemStage selectedServiceItemIndex (allColumns p)))

/-- The composite memo key of the filter inputs. -/
def mkFilterKey (selectedServiceItemIndex : Option Int)
    (showReportableOnly : Bool) (viewMode : ViewMode) : String :=
  (match selectedServiceItemIndex with
   | some i => toString i
   | none => "null") ++ "-" ++
  (if showReportableOnly then "true" else "false") ++ "-" ++
  viewModeKey viewMode

/-- The `filteredColumns` computed body with its manual memo cache: reset
the cache when the data reference changed, return the cached array on a key
match (reference equality modelled by the array id), otherwise run the
pipeline and cache the fresh array. -/
def filteredColumns (s : StoreState) :
    (Nat × List ColumnDefinition) × StoreState :=
  match s.data with
  | none =>
    ((s.nextArrayId, []),
     { s with filteredColumnsCache := [], filteredColumnsCacheKey := "",
              nextArrayId := s.nextArrayId + 1 })
  | some (ref, p) =>
    let s1 :=
      if s.lastDataRefForColumns == some ref then s
      else { s with filteredColumnsCache := [], filteredColumnsCacheKey := "",
                    lastDataRefForColumns := some ref }
    let cacheKey := mkFilterKey s1.selectedServiceItemIndex
      s1.showReportableOnly s1.viewMode
    if s1.filteredColumnsCacheKey == cacheKey &&
        decide (0 < s1.filteredColumnsCache.length) then
      ((s1.filteredColumnsCacheId, s1.filteredColumnsCache), s1)
    else
      let columns := computeFilteredColumns p s1.selectedServiceItemIndex
        s1.showReportableOnly s1.viewMode
      ((s1.nextArrayId, columns),
       { s1 with filteredColumnsCache := columns,
                 filteredColumnsCacheId := s1.nextArrayId,
                 filteredColumnsCacheKey := cacheKey,
                 nextArrayId := s1.nextArrayId + 1 })

/-! ## Mutation-sequence language (for invariants quantified over call
sequences) -/

/-- One mutation-API call. -/
inductive MutationOp
  | setCell (rowIndex columnIndex : Nat) (value : JSVal) (src : Option String)
  | markFinal (rowIndex columnIndex : Nat)
  | clearCell (rowIndex columnIndex : Nat)
  | setCorrection (rowIndex columnIndex : Nat)
      (baselineCorrection multiplier : Option ℚ)
  | startB
  | endB
deriving DecidableEq, Repr

/-- Apply one mutation-API call. -/
def applyMutation (s : StoreState) : MutationOp → StoreState
  | MutationOp.setCell r c v src => setCellValue s r c v src
  | MutationOp.markFinal r c => markResultCellFinal s r c
  | MutationOp.clearCell r c => clearResultCell s r c
  | MutationOp.setCorrection r c b m => setManualCorrection s r c b m
  | MutationOp.startB => startBatch s
  | MutationOp.endB => endBatch s

/-- Apply a sequence of mutation-API calls, first to last. -/
def applyMutations (s : StoreState) (ops : List MutationOp) : StoreState :=
  ops.foldl applyMutation s

/-- The cell currently stored at `(rowIndex, columnIndex)`: the first
matching entry of the row's sparse values (the object every reader
resolves). -/
def cellAt (s : StoreState) (rowIndex columnIndex : Nat) : Option CellValue :=
  (s.data.bind (fun d => d.2.rows.find? (fun row => row.rowIndex == rowIndex))).bind
    (fun row => findCell row columnIndex)

/-- Success precondition for `markResultCellFinal`: the dataset is loaded,
the row resolves, and the column is present in the key list the call will
use (so the call takes the direct mark path and fires its notification). -/
def markReady (s : StoreState) (rowIndex columnIndex : Nat) : Bool :=
  match s.data with
  | none => false
  | some (_, p) =>
    match p.rows.find? (fun row => row.rowIndex == rowIndex) with
    | none => false
    | some row => decide (columnIndex ∈ cellKeysFor s rowIndex row)

/-- Fold `markResultCellFinal` over a list of targets. -/
def applyMarks (s : StoreState) (targets : List (Nat × Nat)) : StoreState :=
  targets.foldl (fun s t => markResultCellFinal s t.1 t.2) s

/-! ## Concrete example data (used by counterexamples and witnesses) -/

/-- A single row holding the value `10` in column `5`. -/
def exRowTen : RowData :=
  { rowIndex := 0, seqNo := 1, sampleName := "S1", travelerNo := "T",
    controlType := "ORIGINAL",
    values := [{ columnIndex := 5, value := some (JSVal.num 10) }] }

/-- A payload with the single row `exRowTen`. -/
def exPayTen : OptimizedDataTablePayload :=
  { metadata := { schema := {} }, rows := [exRowTen] }

/-- A single row with an empty sparse values list. -/
def exRowEmpty : RowData :=
  { rowIndex := 0, seqNo := 1, sampleName := "S1", travelerNo := "T",
    controlType := "ORIGINAL", values := [] }

/-- A payload with the single cell-less row `exRowEmpty`. -/
def exPayEmpty : OptimizedDataTablePayload :=
  { metadata := { schema := {} }, rows := [exRowEmpty] }

/-- A row whose cell in column `5` carries a stored `originalValue`. -/
def exRowCorrected : RowData :=
  { rowIndex := 0, seqNo := 1, sampleName := "S1", travelerNo := "T",
    controlType := "ORIGINAL",
    values := [{ columnIndex := 5, value := some (JSVal.num 30),
                 originalValue := some 10 }] }

/-- A payload with the single row `exRowCorrected`. -/
def exPayCorrected : OptimizedDataTablePayload :=
  { metadata := { schema := {} }, rows := [exRowCorrected] }

/-- An ORIGINAL sample row with result value `100` in column `5`
(mixed-case control type, exercising the case-insensitive compare). -/
def exRowOriginal : RowData :=
  { rowIndex := 0, seqNo := 1, sampleName := "S1", travelerNo := "T",
    controlType := "Original",
    values := [{ columnIndex := 5, value := some (JSVal.num 100) }] }

/-- The matching REJECTDUP duplicate row (`S1-R`) with value `121`. -/
def exRowRejectDup : RowData :=
  { rowIndex := 1, seqNo := 2, sampleName := "S1-R", travelerNo := "T",
    controlType := "RejectDup",
    values := [{ columnIndex := 5, value := some (JSVal.num 121) }] }

/-- The two-row ORIGINAL/REJECTDUP payload. -/
def exPayVariance : OptimizedDataTablePayload :=
  { metadata := { schema := {} }, rows := [exRowOriginal, exRowRejectDup] }

/-- The result column the variance examples classify. -/
def exColResult : ColumnDefinition :=
  { columnIndex := 5, serviceItemIndex := 0, analyteIndex := 0,
    columnType := ColumnType.result }

/-- A rawdata column carrying no `isSelected` flag at all. -/
def exColRawdata : ColumnDefinition :=
  { columnIndex := 5, serviceItemIndex := 0, analyteIndex := 0,
    columnType := ColumnType.rawdata }

/-- A payload whose only dynamic column is `exColRawdata`. -/
def exPayRawdata : OptimizedDataTablePayload :=
  { metadata := { schema := { columnDefinitions := [exColRawdata] } }, rows := [] }

/-! ## Helper lemmas -/

theorem mem_addToSet {l : List Nat} {x y : Nat} :
    y ∈ addToSet l x ↔ y ∈ l ∨ y = x := by
  by_cases h : x ∈ l
  · simp only [addToSet, if_pos h]
    constructor
    · exact Or.inl
    · rintro (hy | rfl) <;> assumption
  · simp [addToSet, if_neg h]

theorem mem_foldl_addToSet (l l0 : List Nat) (y : Nat) :
    y ∈ l.foldl addToSet l0 ↔ y ∈ l0 ∨ y ∈ l := by
  induction l generalizing l0 with
  | nil => simp
  | cons x xs ih =>
    simp only [List.foldl_cons, ih, mem_addToSet, List.mem_cons]
    tauto

theorem find?_rows_updateRow (p : OptimizedDataTablePayload) (r : Nat)
    (f : RowData → RowData) (rq : Nat)
    (hf : ∀ row, (f row).rowIndex = row.rowIndex) :
    (updateRow p r f).rows.find? (fun row => row.rowIndex == rq) =
      (p.rows.find? (fun row => row.rowIndex == rq)).map
        (fun row => if row.rowIndex == r then f row else row) := by
  unfold updateRow
  rw [List.find?_map]
  have hpred : ((fun row => row.rowIndex == rq) ∘
      fun row => if row.rowIndex == r then f row else row) =
      (fun row => row.rowIndex == rq) := by
    funext row
    rcases eq_or_ne row.rowIndex r with h | h <;> simp [h, hf]
  rw [hpred]

theorem find?_updateFirstCell (l : List CellValue) (c0 c : Nat)
    (f : CellValue → CellValue)
    (hf : ∀ cell, (f cell).columnIndex = cell.columnIndex) :
    (updateFirstCell l c0 f).find? (fun cell => cell.columnIndex == c) =
      if c = c0 then (l.find? (fun cell => cell.columnIndex == c)).map f
      else l.find? (fun cell => cell.columnIndex == c) := by
  induction l with
  | nil => simp [updateFirstCell]
  | cons cell rest ih =>
    simp only [updateFirstCell]
    rcases eq_or_ne cell.columnIndex c0 with h0 | h0
    · rcases eq_or_ne c c0 with hc | hc
      · subst hc; subst h0
        simp [List.find?_cons, hf]
      · have h1 : cell.columnIndex ≠ c := by omega
        have hcc : (c0 == c) = false := by
          simpa using Ne.symm hc
        simp [List.find?_cons, h0, h1, hf, hc, hcc]
    · rcases eq_or_ne cell.columnIndex c with h1 | h1
      · have hc : c ≠ c0 := by omega
        simp [List.find?_cons, h0, h1, ih, hc]
      · simp [List.find?_cons, h0, h1, ih]

theorem map_columnIndex_updateFirstCell (l : List CellValue) (c0 : Nat)
    (f : CellValue → CellValue)
    (hf : ∀ cell, (f cell).columnIndex = cell.columnIndex) :
    (updateFirstCell l c0 f).map (fun cell => cell.columnIndex) =
      l.map (fun cell => cell.columnIndex) := by
  induction l with
  | nil => rfl
  | cons cell rest ih =>
    rcases eq_or_ne cell.columnIndex c0 with h0 | h0
    · simp [updateFirstCell, h0, hf]
    · simp [updateFirstCell, h0, ih]

theorem find?_filter_ne (l : List CellValue) (c0 c : Nat) (h : c ≠ c0) :
    ((l.filter (fun cell => cell.columnIndex != c0)).find?
        (fun cell => cell.columnIndex == c)) =
      l.find? (fun cell => cell.columnIndex == c) := by
  induction l with
  | nil => rfl
  | cons cell rest ih =>
    rcases eq_or_ne cell.columnIndex c0 with h0 | h0
    · have h1 : cell.columnIndex ≠ c := by omega
      have hcc : (c0 == c) = false := by
        simpa using Ne.symm h
      simp [List.filter_cons, h0, h1, ih, List.find?_cons, hcc]
    · rcases eq_or_ne cell.columnIndex c with h1 | h1
      · simp [List.filter_cons, h0, h1, List.find?_cons, h]
      · simp [List.filter_cons, h0, h1, ih, List.find?_cons]

theorem find?_filter_self (l : List CellValue) (c0 : Nat) :
    ((l.filter (fun cell => cell.columnIndex != c0)).find?
        (fun cell => cell.columnIndex == c0)) = none := by
  rw [List.find?_eq_none]
  intro cell hmem
  rcases List.mem_filter.mp hmem with ⟨_, hne⟩
  simp only [bne_iff_ne, ne_eq] at hne
  simpa using hne

theorem lookupCellKeys_ensure_ne (m : List (Nat × List Nat)) (r : Nat)
    (ks : List Nat) (rq : Nat) (h : rq ≠ r) :
    lookupCellKeys (ensureCellKeys m r ks) rq = lookupCellKeys m rq := by
  unfold ensureCellKeys
  by_cases hp : (m.find? (fun e => e.1 == r)).isSome
  · simp [hp]
  · simp only [hp, if_false, Bool.false_eq_true, lookupCellKeys, List.find?_append]
    have hs : (([(r, ks)] : List (Nat × List Nat)).find? (fun e => e.1 == rq)) = none := by
      simp [List.find?_cons, Ne.symm h]
    rw [hs, Option.or_none]

theorem lookupCellKeys_ensure_self (m : List (Nat × List Nat)) (r : Nat)
    (ks : List Nat) :
    lookupCellKeys (ensureCellKeys m r ks) r =
      some ((lookupCellKeys m r).getD ks) := by
  unfold ensureCellKeys
  by_cases hp : (m.find? (fun e => e.1 == r)).isSome
  · rcases Option.isSome_iff_exists.mp hp with ⟨e, he⟩
    simp [lookupCellKeys, he]
  · have hnone : m.find? (fun e => e.1 == r) = none :=
      Option.not_isSome_iff_eq_none.mp (by simpa using hp)
    simp [hp, lookupCellKeys, List.find?_append, hnone]

theorem recomputeMaps_preserves (s : StoreState) :
    (recomputeMaps s).data = s.data ∧
    (recomputeMaps s).triggerCount = s.triggerCount ∧
    (recomputeMaps s).changedRowIndices = s.changedRowIndices ∧
    (recomputeMaps s).batchChangedRows = s.batchChangedRows ∧
    (recomputeMaps s).hasUnsavedChanges = s.hasUnsavedChanges ∧
    (recomputeMaps s).isBatching = s.isBatching ∧
    (recomputeMaps s).now = s.now := by
  unfold recomputeMaps
  split
  · exact ⟨rfl, rfl, rfl, rfl, rfl, rfl, rfl⟩
  · split
    · exact ⟨rfl, rfl, rfl, rfl, rfl, rfl, rfl⟩
    · split <;> exact ⟨rfl, rfl, rfl, rfl, rfl, rfl, rfl⟩

theorem getCellValueByIndex_preserves (s : StoreState) (r c : Nat) :
    ((getCellValueByIndex s r c).2).data = s.data ∧
    ((getCellValueByIndex s r c).2).triggerCount = s.triggerCount ∧
    ((getCellValueByIndex s r c).2).changedRowIndices = s.changedRowIndices ∧
    ((getCellValueByIndex s r c).2).batchChangedRows = s.batchChangedRows ∧
    ((getCellValueByIndex s r c).2).hasUnsavedChanges = s.hasUnsavedChanges ∧
    ((getCellValueByIndex s r c).2).isBatching = s.isBatching ∧
    ((getCellValueByIndex s r c).2).now = s.now := by
  unfold getCellValueByIndex
  split
  · exact ⟨rfl, rfl, rfl, rfl, rfl, rfl, rfl⟩
  · split <;> exact recomputeMaps_preserves s

theorem cellAt_congr (s s' : StoreState) (r c : Nat) (h : s'.data = s.data) :
    cellAt s' r c = cellAt s r c := by
  unfold cellAt
  rw [h]


/-! ## Shared pipeline and guard lemmas -/

/-- Membership in a guarded filter: when a list is either empty or a
filter, every member satisfies the filter predicate. -/
theorem mem_ite_nil_filter {α : Type} {cond : Prop} [Decidable cond]
    {pred : α → Bool} {l : List α} {x : α}
    (h : x ∈ (if cond then ([] : List α) else l.filter pred)) : pred x = true := by
  split at h
  · simp at h
  · exact (List.mem_filter.mp h).2

/-- Every static column survives every stage of the column filter pipeline
(any service-item selection, reportable toggle and view mode). -/
theorem staticColumns_pass_filters (p : OptimizedDataTablePayload)
    (si : Option Int) (rep : Bool) (vm : ViewMode) (colS : ColumnDefinition)
    (h : colS ∈ staticColumnList) :
    colS ∈ computeFilteredColumns p si rep vm := by
  have hidx : colS.columnIndex < STATIC_COLUMN_COUNT :=
    (by decide : ∀ x ∈ staticColumnList, x.columnIndex < STATIC_COLUMN_COUNT) colS h
  have hmem : colS ∈ allColumns p := List.mem_append.mpr (Or.inl h)
  have h1 : colS ∈ serviceItemStage si (allColumns p) := by
    cases si with
    | none => exact hmem
    | some v => exact List.mem_filter.mpr ⟨hmem, by simp [hidx]⟩
  have h2 : colS ∈ reportableStage p rep (serviceItemStage si (allColumns p)) := by
    unfold reportableStage
    by_cases hrep : rep = true
    · rw [if_pos hrep]
      exact List.mem_filter.mpr ⟨h1, by simp [hidx]⟩
    · rw [if_neg hrep]
      exact h1
  unfold computeFilteredColumns viewModeStage
  by_cases hvm : (vm == ViewMode.report) = true
  · rw [if_pos hvm]
    exact List.mem_filter.mpr ⟨h2, by simp [reportStageKeep, hidx]⟩
  · rw [if_neg hvm]
    exact h2

/-- Each filter stage only narrows its input list, and the report stage's
predicate holds of every survivor in report mode. -/
theorem mem_computeFilteredColumns_elim (p : OptimizedDataTablePayload)
    (si : Option Int) (rep : Bool) (vm : ViewMode) (col : ColumnDefinition)
    (h : col ∈ computeFilteredColumns p si rep vm) :
    col ∈ allColumns p ∧ (vm = ViewMode.report → reportStageKeep col = true) := by
  unfold computeFilteredColumns viewModeStage at h
  have hsub : ∀ cols, col ∈ reportableStage p rep (serviceItemStage si cols) → col ∈ cols := by
    intro cols hc
    have hc1 : col ∈ serviceItemStage si cols := by
      unfold reportableStage at hc
      split at hc
      · exact (List.mem_filter.mp hc).1
      · exact hc
    unfold serviceItemStage at hc1
    cases si with
    | none => exact hc1
    | some v => exact (List.mem_filter.mp hc1).1
  by_cases hvm : (vm == ViewMode.report) = true
  · rw [if_pos hvm] at h
    rcases List.mem_filter.mp h with ⟨hin, hkeep⟩
    exact ⟨hsub _ hin, fun _ => hkeep⟩
  · rw [if_neg hvm] at h
    refine ⟨hsub _ h, fun hv => absurd ?_ hvm⟩
    simp [hv]

/-! ## Claim C7 -/

/-- C7: every mutation operation (`setCellValue`, `markResultCellFinal`,
`clearResultCell`, `setManualCorrection`) invoked when no dataset is loaded,
or when the target row index resolves to no row, returns normally and leaves
the whole store state unchanged — in particular `hasUnsavedChanges` and
`changedRowIndices`. -/
theorem c7_mutations_fail_soft (s : StoreState) (r c : Nat) (v : JSVal)
    (src : Option String) (b m : Option ℚ)
    (h : s.data = none ∨ ∃ ref p, s.data = some (ref, p) ∧
      p.rows.find? (fun row => row.rowIndex == r) = none) :
    setCellValue s r c v src = s ∧ markResultCellFinal s r c = s ∧
    clearResultCell s r c = s ∧ setManualCorrection s r c b m = s := by
  rcases h with hnone | ⟨ref, p, hdata, hfind⟩
  · refine ⟨?_, ?_, ?_, ?_⟩ <;>
      simp [setCellValue, markResultCellFinal, clearResultCell,
        setManualCorrection, hnone]
  · refine ⟨?_, ?_, ?_, ?_⟩ <;>
      simp [setCellValue, markResultCellFinal, clearResultCell,
        setManualCorrection, hdata, hfind]

/-- C7 witness: a loaded dataset with no row `99`; all four mutations
targeting row `99` leave the freshly loaded state untouched. -/
theorem c7_mutations_fail_soft_witness :
    ((mkLoadedState exPayEmpty).data = some (0, exPayEmpty) ∧
      exPayEmpty.rows.find? (fun row => row.rowIndex == 99) = none) ∧
    setCellValue (mkLoadedState exPayEmpty) 99 5 (JSVal.num 1) none =
      mkLoadedState exPayEmpty ∧
    markResultCellFinal (mkLoadedState exPayEmpty) 99 5 = mkLoadedState exPayEmpty ∧
    clearResultCell (mkLoadedState exPayEmpty) 99 5 = mkLoadedState exPayEmpty ∧
    setManualCorrection (mkLoadedState exPayEmpty) 99 5 none none =
      mkLoadedState exPayEmpty :=
  ⟨⟨rfl, by decide⟩,
    c7_mutations_fail_soft (mkLoadedState exPayEmpty) 99 5 (JSVal.num 1) none none none
      (Or.inr ⟨0, exPayEmpty, rfl, by decide⟩)⟩

/-! ## Claim C10 -/

/-- C10: when classifying an ORIGINAL row, a sibling row is matched exactly
when it shares the traveler number, its sample name equals this row's
sample name + "-R" or + "-X", and its control type (upper-cased, i.e.
compared case-insensitively) is REJECTDUP or PULPDUP — a row with a
matching name pattern but another control type is never matched.
Symmetrically, a REJECTDUP/PULPDUP row only matches siblings whose
control type is ORIGINAL. -/
theorem c10_matching_requires_control_type (rows : List RowData) (row r' : RowData) :
    (r' ∈ matchingRowsOriginal rows row ↔
      r' ∈ rows ∧
      (jsToUpper r'.controlType = "REJECTDUP" ∨ jsToUpper r'.controlType = "PULPDUP") ∧
      r'.travelerNo = row.travelerNo ∧
      (r'.sampleName = row.sampleName ++ "-R" ∨ r'.sampleName = row.sampleName ++ "-X")) ∧
    (r' ∈ matchingRowsDup rows row → jsToUpper r'.controlType = "ORIGINAL") := by
  constructor
  · simp only [matchingRowsOriginal, List.mem_filter, Bool.and_eq_true,
      Bool.or_eq_true, beq_iff_eq, upperCT]
    tauto
  · intro hmem
    have hb := mem_ite_nil_filter hmem
    simp only [Bool.and_eq_true, beq_iff_eq, upperCT] at hb
    exact hb.1.1

/-- C10 witness: the concrete REJECTDUP duplicate row is matched for the
ORIGINAL row, and the theorem yields its control-type constraint. -/
theorem c10_matching_requires_control_type_witness :
    exRowRejectDup ∈ matchingRowsOriginal [exRowOriginal, exRowRejectDup] exRowOriginal ∧
    (jsToUpper exRowRejectDup.controlType = "REJECTDUP" ∨
      jsToUpper exRowRejectDup.controlType = "PULPDUP") :=
  ⟨by decide,
    (((c10_matching_requires_control_type [exRowOriginal, exRowRejectDup]
        exRowOriginal exRowRejectDup).1.mp (by decide)).2.1)⟩

/-! ## Claim C6 -/

/-- C6 counterexample: in report view mode, a rawdata column that is not
marked `isSelected` (its flag is absent altogether) nevertheless appears in
the filtered-columns result, so the claim as stated is false. -/
theorem c6_report_filter_counterexample :
    exColRawdata ∈ computeFilteredColumns exPayRawdata none false ViewMode.report ∧
    exColRawdata.columnType = ColumnType.rawdata ∧
    exColRawdata.isSelected ≠ some true := by decide

/-- C6 (amended): in report view mode the filtered-columns result excludes
every correction-type column and every rawdata column whose `isSelected`
flag is explicitly `false` (a rawdata column without the flag passes), and
the static columns (index < 5) always pass through every filter stage. -/
theorem c6_report_mode_filter (p : OptimizedDataTablePayload)
    (si : Option Int) (rep : Bool)
    (hwf : ∀ col ∈ p.metadata.schema.columnDefinitions,
      STATIC_COLUMN_COUNT ≤ col.columnIndex) :
    (∀ col ∈ computeFilteredColumns p si rep ViewMode.report,
       col.columnType ≠ ColumnType.correction ∧
       ¬(col.columnType = ColumnType.rawdata ∧ col.isSelected = some false)) ∧
    (∀ colS ∈ staticColumnList, colS ∈ computeFilteredColumns p si rep ViewMode.report) := by
  constructor
  · intro col hmem
    rcases mem_computeFilteredColumns_elim p si rep ViewMode.report col hmem with
      ⟨hall, hkeep⟩
    have hk := hkeep rfl
    have hstatic : col.columnIndex < STATIC_COLUMN_COUNT → col.columnType = ColumnType.static := by
      intro hlt
      rcases List.mem_append.mp hall with hs | hd
      · exact (by decide : ∀ x ∈ staticColumnList, x.columnType = ColumnType.static) col hs
      · exact absurd hlt (by simpa using hwf col hd)
    unfold reportStageKeep at hk
    by_cases hlt : col.columnIndex < STATIC_COLUMN_COUNT
    · have := hstatic hlt
      constructor
      · simp [this]
      · simp [this]
    · rw [if_neg hlt] at hk
      constructor
      · intro hcorr
        simp [hcorr] at hk
      · rintro ⟨hraw, hsel⟩
        simp [hraw, hsel] at hk
  · intro colS h
    exact staticColumns_pass_filters p si rep ViewMode.report colS h

/-- C6 witness: the amended theorem applied to the concrete rawdata-only
payload (well-formed: its single dynamic column has index 5). -/
theorem c6_report_mode_filter_witness :
    (∀ col ∈ exPayRawdata.metadata.schema.columnDefinitions,
      STATIC_COLUMN_COUNT ≤ col.columnIndex) ∧
    (∀ col ∈ computeFilteredColumns exPayRawdata none false ViewMode.report,
       col.columnType ≠ ColumnType.correction ∧
       ¬(col.columnType = ColumnType.rawdata ∧ col.isSelected = some false)) ∧
    (∀ colS ∈ staticColumnList,
      colS ∈ computeFilteredColumns exPayRawdata none false ViewMode.report) :=
  ⟨by decide,
    c6_report_mode_filter exPayRawdata none false (by decide)⟩

/-! ## Claim C5 -/

/-- C5 counterexample: `setManualCorrection` with no corrections creates a
`CellValue` object with a null value; `markResultCellFinal` on that cell —
a cell that "has no value" — then sets `isFinal = true` instead of being a
no-op, so the claim as stated is false. -/
theorem c5_markFinal_counterexample :
    (cellAt (setManualCorrection (mkLoadedState exPayEmpty) 0 5 none none) 0 5).map
      (fun cv => cv.value) = some none ∧
    (cellAt (markResultCellFinal
        (setManualCorrection (mkLoadedState exPayEmpty) 0 5 none none) 0 5) 0 5).map
      (fun cv => (cv.value, cv.isFinal)) = some (none, some true) := by decide

/-- C5 (amended): `markResultCellFinal` is a silent no-op exactly in the
no-cell-object case: when the row's cached key list has no entry for the
column and the value resolved through `getCellValueByIndex` is null or
empty, the call changes neither the data nor `hasUnsavedChanges`,
`triggerCount`, `changedRowIndices` or `batchChangedRows` (only the lookup
caches may warm up); when a `CellValue` object exists, `isFinal` is set
even if the cell has no value (see the counterexample). -/
theorem c5_markFinal_noop_without_cell_object (s : StoreState) (r c : Nat)
    (ref : Nat) (p : OptimizedDataTablePayload) (row : RowData)
    (hdata : s.data = some (ref, p))
    (hfind : p.rows.find? (fun rw => rw.rowIndex == r) = some row)
    (hmem : c ∉ cellKeysFor s r row)
    (hempty : isEmptyVal (getCellValueByIndex (markCachePrimed s r row) r c).1 = true) :
    cellAt (markResultCellFinal s r c) r c = cellAt s r c ∧
    (markResultCellFinal s r c).data = s.data ∧
    (markResultCellFinal s r c).hasUnsavedChanges = s.hasUnsavedChanges ∧
    (markResultCellFinal s r c).triggerCount = s.triggerCount ∧
    (markResultCellFinal s r c).changedRowIndices = s.changedRowIndices ∧
    (markResultCellFinal s r c).batchChangedRows = s.batchChangedRows := by
  have heq : markResultCellFinal s r c =
      (getCellValueByIndex (markCachePrimed s r row) r c).2 := by
    simp only [markResultCellFinal, hdata, hfind]
    rw [if_neg hmem, if_pos hempty]
  rw [heq]
  obtain ⟨h1, h2, h3, h4, h5, h6, _⟩ :=
    getCellValueByIndex_preserves (markCachePrimed s r row) r c
  have hd : (markCachePrimed s r row).data = s.data := rfl
  have hh : (markCachePrimed s r row).hasUnsavedChanges = s.hasUnsavedChanges := rfl
  have ht : (markCachePrimed s r row).triggerCount = s.triggerCount := rfl
  have hc2 : (markCachePrimed s r row).changedRowIndices = s.changedRowIndices := rfl
  have hb2 : (markCachePrimed s r row).batchChangedRows = s.batchChangedRows := rfl
  exact ⟨cellAt_congr _ _ _ _ (h1.trans hd), h1.trans hd, h5.trans hh,
    h2.trans ht, h3.trans hc2, h4.trans hb2⟩

/-- C5 witness: the amended no-op applied to a loaded dataset whose row has
no cell object and no resolvable value in column 5. -/
theorem c5_markFinal_noop_witness :
    ((mkLoadedState exPayEmpty).data = some (0, exPayEmpty) ∧
      5 ∉ cellKeysFor (mkLoadedState exPayEmpty) 0 exRowEmpty) ∧
    cellAt (markResultCellFinal (mkLoadedState exPayEmpty) 0 5) 0 5 =
      cellAt (mkLoadedState exPayEmpty) 0 5 ∧
    (markResultCellFinal (mkLoadedState exPayEmpty) 0 5).hasUnsavedChanges =
      (mkLoadedState exPayEmpty).hasUnsavedChanges ∧
    (markResultCellFinal (mkLoadedState exPayEmpty) 0 5).triggerCount =
      (mkLoadedState exPayEmpty).triggerCount :=
  have h := c5_markFinal_noop_without_cell_object (mkLoadedState exPayEmpty) 0 5
    0 exPayEmpty exRowEmpty rfl (by decide) (by decide) (by decide)
  ⟨⟨rfl, by decide⟩, h.1, h.2.2.1, h.2.2.2.1⟩

/-! ## Claim C4 -/

/-- C4 (failing input for the code bug): warm the lookup caches with one
read, start a batch and create a new cell through `setCellValue`; the cell
is in the row's sparse values (second conjunct) but a read through
`getCellValueByIndex` before `endBatch` returns null (first conjunct),
because the source's `setCellValue` create path pushes the cell without a
`rowCellMap.set`, so the cached cell map is stale until the next
invalidation — contradicting the spec's "reads observe already-applied
mutations; only the notify step is deferred". -/
theorem c4_batched_read_misses_created_cell :
    (getCellValueByIndex (setCellValue
        (startBatch ((getCellValueByIndex (mkLoadedState exPayEmpty) 0 5).2))
        0 5 (JSVal.num 7) none) 0 5).1 = none ∧
    (cellAt (setCellValue
        (startBatch ((getCellValueByIndex (mkLoadedState exPayEmpty) 0 5).2))
        0 5 (JSVal.num 7) none) 0 5).map (fun cv => cv.value) =
      some (some (JSVal.num 7)) := by decide

/-! ## Claim C1 -/

/-- C1 (failing input for the code bug): on a cell whose original value is
10, `setManualCorrection(baseline = 2.5)` followed by
`setManualCorrection(multiplier = 3)` leaves the value `10 × 3 = 30`: the
second call recomputes from `originalValue` using only the multiplier
passed in that call and ignores the stored baseline, so the value is not
`(10 + 2.5) × 3 = 37.5` as the claim requires. -/
theorem c1_corrections_not_recombined :
    (cellAt (setManualCorrection
        (setManualCorrection (mkLoadedState exPayTen) 0 5 (some (5/2)) none)
        0 5 none (some 3)) 0 5).map (fun cv => cv.value) =
      some (some (JSVal.num 30)) ∧
    ((10 : ℚ) + 5/2) * 3 = 75/2 ∧
    JSVal.num 30 ≠ JSVal.num (75/2) := by
  refine ⟨?_, by norm_num, by simp only [ne_eq, JSVal.num.injEq]; norm_num⟩
  norm_num [cellAt, setManualCorrection, mkLoadedState, exPayTen, exRowTen,
    cellKeysFor, lookupCellKeys, valueKeys, applyManualCorrection, parseFloatV,
    isEmptyVal, updateRow, updateFirstCell, ensureCellKeys, addCellKey,
    addToSet, notifyRowChanged, findCell]

/-! ## Claim C8 -/

/-- The filter cache key is never the empty string (the reset marker). -/
theorem mkFilterKey_ne_empty (si : Option Int) (rep : Bool) (vm : ViewMode) :
    mkFilterKey si rep vm ≠ "" := by
  intro h
  have h2 := congrArg String.length h
  have hdash : ("-" : String).length = 1 := rfl
  simp only [mkFilterKey, String.length_append, hdash] at h2
  have hempty : ("" : String).length = 0 := rfl
  rw [hempty] at h2
  omega

/-- The filtered column list always contains the five static columns, so it
is never empty. -/
theorem computeFilteredColumns_length_pos (p : OptimizedDataTablePayload)
    (si : Option Int) (rep : Bool) (vm : ViewMode) :
    0 < (computeFilteredColumns p si rep vm).length :=
  List.length_pos_of_mem
    (staticColumns_pass_filters p si rep vm
      { columnIndex := 0, columnKey := "seqNo", serviceItemIndex := -1,
        analyteIndex := -1, columnType := ColumnType.static, label := "Seq No" }
      (by decide))

/-- A state whose memo cache already matches the current filter key and
holds a nonempty array returns the cached array unchanged. -/
theorem filteredColumns_stable (s : StoreState) (ref : Nat)
    (p : OptimizedDataTablePayload) (hdata : s.data = some (ref, p))
    (href : s.lastDataRefForColumns = some ref)
    (hkey : s.filteredColumnsCacheKey =
      mkFilterKey s.selectedServiceItemIndex s.showReportableOnly s.viewMode)
    (hlen : 0 < s.filteredColumnsCache.length) :
    filteredColumns s = ((s.filteredColumnsCacheId, s.filteredColumnsCache), s) := by
  simp only [filteredColumns, hdata]
  simp [href, hkey, hlen]

/-- After one `filteredColumns` computation on a loaded dataset, the memo
cache matches the current filter key, holds a nonempty array, and the
returned pair is exactly the cached id and array. -/
theorem filteredColumns_post (s : StoreState) (ref : Nat)
    (p : OptimizedDataTablePayload) (hdata : s.data = some (ref, p)) :
    ((filteredColumns s).2).data = some (ref, p) ∧
    ((filteredColumns s).2).lastDataRefForColumns = some ref ∧
    ((filteredColumns s).2).filteredColumnsCacheKey =
      mkFilterKey ((filteredColumns s).2).selectedServiceItemIndex
        ((filteredColumns s).2).showReportableOnly ((filteredColumns s).2).viewMode ∧
    0 < ((filteredColumns s).2).filteredColumnsCache.length ∧
    (filteredColumns s).1.1 = ((filteredColumns s).2).filteredColumnsCacheId ∧
    (filteredColumns s).1.2 = ((filteredColumns s).2).filteredColumnsCache := by
  have hpos := computeFilteredColumns_length_pos p s.selectedServiceItemIndex
    s.showReportableOnly s.viewMode
  by_cases href : (s.lastDataRefForColumns == some ref) = true
  · by_cases hhit : (s.filteredColumnsCacheKey ==
        mkFilterKey s.selectedServiceItemIndex s.showReportableOnly s.viewMode &&
        decide (0 < s.filteredColumnsCache.length)) = true
    · rcases Bool.and_eq_true_iff.mp hhit with ⟨hk, hl⟩
      have h1 := filteredColumns_stable s ref p hdata (by simpa using href)
        (by simpa using hk) (by simpa using hl)
      rw [h1]
      exact ⟨hdata, by simpa using href, by simpa using hk, by simpa using hl,
        rfl, rfl⟩
    · have h1 : filteredColumns s =
          ((s.nextArrayId, computeFilteredColumns p s.selectedServiceItemIndex
              s.showReportableOnly s.viewMode),
            { s with
              data := some (ref, p)
              filteredColumnsCache := (computeFilteredColumns p
                s.selectedServiceItemIndex s.showReportableOnly s.viewMode)
              filteredColumnsCacheId := s.nextArrayId
              filteredColumnsCacheKey := (mkFilterKey s.selectedServiceItemIndex
                s.showReportableOnly s.viewMode)
              nextArrayId := s.nextArrayId + 1 }) := by
        simp only [filteredColumns, hdata]
        rw [if_pos href, if_neg hhit, hdata]
      rw [h1]
      exact ⟨rfl, by simpa using href, rfl, by simpa using hpos, rfl, rfl⟩
  · have hne : ((("" : String) == mkFilterKey s.selectedServiceItemIndex
        s.showReportableOnly s.viewMode) = false) := by
      simpa using Ne.symm (mkFilterKey_ne_empty s.selectedServiceItemIndex
        s.showReportableOnly s.viewMode)
    have h1 : filteredColumns s =
        ((s.nextArrayId, computeFilteredColumns p s.selectedServiceItemIndex
            s.showReportableOnly s.viewMode),
          { s with
            data := some (ref, p)
            filteredColumnsCache := (computeFilteredColumns p
              s.selectedServiceItemIndex s.showReportableOnly s.viewMode)
            filteredColumnsCacheId := s.nextArrayId
            filteredColumnsCacheKey := (mkFilterKey s.selectedServiceItemIndex
              s.showReportableOnly s.viewMode)
            lastDataRefForColumns := some ref
            nextArrayId := s.nextArrayId + 1 }) := by
      simp only [filteredColumns, hdata]
      rw [if_neg href, if_neg (by simp [hne])]
    rw [h1]
    exact ⟨rfl, rfl, rfl, by simpa using hpos, rfl, rfl⟩

/-- C8: with a dataset loaded, computing the filtered columns twice with an
unchanged filter state and an unchanged payload reference yields
reference-equal arrays — the second computation is a cache hit that returns
the same array object (same generation id, same contents) and leaves the
state untouched. -/
theorem c8_filteredColumns_memo_hit (s : StoreState) (ref : Nat)
    (p : OptimizedDataTablePayload) (hdata : s.data = some (ref, p)) :
    (filteredColumns (filteredColumns s).2).1.1 = (filteredColumns s).1.1 ∧
    (filteredColumns (filteredColumns s).2).1.2 = (filteredColumns s).1.2 ∧
    (filteredColumns (filteredColumns s).2).2 = (filteredColumns s).2 := by
  obtain ⟨hd2, hr2, hk2, hl2, hid, harr⟩ := filteredColumns_post s ref p hdata
  have h2 := filteredColumns_stable ((filteredColumns s).2) ref p hd2 hr2 hk2 hl2
  rw [h2]
  exact ⟨hid.symm, harr.symm, rfl⟩

/-- C8 witness: a freshly loaded payload; the second computation returns
the array with the same generation id and contents. -/
theorem c8_filteredColumns_memo_hit_witness :
    (mkLoadedState exPayRawdata).data = some (0, exPayRawdata) ∧
    (filteredColumns (filteredColumns (mkLoadedState exPayRawdata)).2).1.1 =
      (filteredColumns (mkLoadedState exPayRawdata)).1.1 ∧
    (filteredColumns (filteredColumns (mkLoadedState exPayRawdata)).2).1.2 =
      (filteredColumns (mkLoadedState exPayRawdata)).1.2 ∧
    (filteredColumns (filteredColumns (mkLoadedState exPayRawdata)).2).2 =
      (filteredColumns (mkLoadedState exPayRawdata)).2 :=
  ⟨rfl, c8_filteredColumns_memo_hit (mkLoadedState exPayRawdata) 0 exPayRawdata rfl⟩

/-! ## Claim C3 -/

/-- Bridge between the source's JS comparison on variance values and the
order on `WithTop ℚ` (for non-`NaN` values). -/
theorem jsGt_eq_decide (a b : VarianceVal) (x y : WithTop ℚ)
    (ha : toWTop a = some x) (hb : toWTop b = some y) :
    jsGt a b = decide (y < x) := by
  cases a with
  | nan => simp [toWTop] at ha
  | inf =>
    cases b with
    | nan => simp [toWTop] at hb
    | inf =>
      simp only [toWTop, Option.some.injEq] at ha hb
      subst ha; subst hb
      simp [jsGt]
    | fin qb =>
      simp only [toWTop, Option.some.injEq] at ha hb
      subst ha; subst hb
      simp [jsGt, WithTop.coe_lt_top]
  | fin qa =>
    cases b with
    | nan => simp [toWTop] at hb
    | inf =>
      simp only [toWTop, Option.some.injEq] at ha hb
      subst ha; subst hb
      simp [jsGt]
    | fin qb =>
      simp only [toWTop, Option.some.injEq] at ha hb
      subst ha; subst hb
      simp [jsGt, WithTop.coe_lt_coe]

/-- The source's replace-if-greater step computes the maximum. -/
theorem toWTop_if_max (a b : VarianceVal) (x y : WithTop ℚ)
    (ha : toWTop a = some x) (hb : toWTop b = some y) :
    toWTop (if jsGt a b then a else b) = some (max y x) := by
  rw [jsGt_eq_decide a b x y ha hb]
  by_cases h : y < x
  · simp [h, ha, max_eq_right (le_of_lt h)]
  · simp [h, hb, max_eq_left (not_lt.mp h)]

/-- The source's highest-variance fold computes the maximum of the
per-sibling variances (NaN variances contribute nothing). -/
theorem trackHighest_spec (f : ℚ → VarianceVal) (vals : List (Option ℚ)) :
    toWTop (trackHighest f vals) =
      some ((vals.filterMap (fun v? => v?.bind (fun v => toWTop (f v)))).foldl
        max ((0 : ℚ) : WithTop ℚ)) := by
  suffices h : ∀ (l : List (Option ℚ)) (acc : VarianceVal) (w : WithTop ℚ),
      toWTop acc = some w →
      toWTop (l.foldl (fun highestVariance v? =>
        match v? with
        | none => highestVariance
        | some v =>
          let variance := f v
          if jsGt variance highestVariance then variance else highestVariance) acc) =
      some ((l.filterMap (fun v? => v?.bind (fun v => toWTop (f v)))).foldl max w) by
    exact h vals (VarianceVal.fin 0) _ rfl
  intro l
  induction l with
  | nil => intro acc w hacc; simpa using hacc
  | cons v? rest ih =>
    intro acc w hacc
    cases v? with
    | none => simpa using ih acc w hacc
    | some v =>
      cases hf : toWTop (f v) with
      | none =>
        have hnan : f v = VarianceVal.nan := by
          cases hfv : f v <;> simp_all [toWTop]
        simp only [List.foldl_cons, List.filterMap_cons, Option.some_bind, hf]
        rw [show (if jsGt (f v) acc then f v else acc) = acc by
          rw [hnan]; cases acc <;> simp [jsGt]]
        exact ih acc w hacc
      | some w' =>
        simp only [List.foldl_cons, List.filterMap_cons, Option.some_bind, hf]
        exact ih _ _ (toWTop_if_max (f v) acc w' w hf hacc)

/-- The source's two-threshold dispatch equals `classifyByThreshold` on the
embedded maximum. -/
theorem classify_eq_spec (h : VarianceVal) (w : WithTop ℚ)
    (hw : toWTop h = some w) (t : Thresholds) (pfx : String) :
    (if jsGt h (VarianceVal.fin t.high) then pfx ++ "-high"
     else if jsGt h (VarianceVal.fin t.medium) then pfx ++ "-medium"
     else "") = classifyByThreshold w t pfx := by
  rw [jsGt_eq_decide h (VarianceVal.fin t.high) w ((t.high : ℚ) : WithTop ℚ) hw rfl,
    jsGt_eq_decide h (VarianceVal.fin t.medium) w ((t.medium : ℚ) : WithTop ℚ) hw rfl]
  unfold classifyByThreshold
  by_cases h1 : ((t.high : ℚ) : WithTop ℚ) < w <;>
    by_cases h2 : ((t.medium : ℚ) : WithTop ℚ) < w <;> simp [h1, h2]

/-- C3 (amended): for every variance-matched control type, the source
classifier equals the spec-worded classifier whose variances are
normalised against the ORIGINAL-side value: the classified row's own value
for ORIGINAL/ORGCRD/ORGPRD rows, but the matched sibling's value for
REJECTDUP/PULPDUP/CRD/PRD rows; the maximum variance across all matching
siblings decides the class. -/
theorem c3_variance_normalized_against_original (p : OptimizedDataTablePayload)
    (column : ColumnDefinition) (cellValue : Option JSVal) (ri : Nat)
    (row : RowData)
    (hfind : p.rows.find? (fun r => r.rowIndex == ri) = some row)
    (hct : upperCT row = "ORIGINAL" ∨ upperCT row = "ORGCRD" ∨
      upperCT row = "ORGPRD" ∨ upperCT row = "REJECTDUP" ∨
      upperCT row = "PULPDUP" ∨ upperCT row = "CRD" ∨ upperCT row = "PRD") :
    getResultCellFormattingClass (some p) column cellValue (some ri) =
      varianceClassSpec false (some p) column cellValue (some ri) := by
  unfold getResultCellFormattingClass varianceClassSpec
  by_cases hcol : (column.columnType != ColumnType.result) = true
  · rw [if_pos hcol, if_pos hcol]
  · rw [if_neg hcol, if_neg hcol]
    simp only [hfind]
    cases hparse : parseFloatV cellValue with
    | none =>
      rcases hct with h | h | h | h | h | h | h <;> simp [h]
    | some q =>
      rcases hct with h | h | h | h | h | h | h <;>
        simp only [h] <;>
        simp only [show (("ORIGINAL" : String) == "CRM") = false by decide,
          show (("ORGCRD" : String) == "CRM") = false by decide,
          show (("ORGPRD" : String) == "CRM") = false by decide,
          show (("REJECTDUP" : String) == "CRM") = false by decide,
          show (("PULPDUP" : String) == "CRM") = false by decide,
          show (("CRD" : String) == "CRM") = false by decide,
          show (("PRD" : String) == "CRM") = false by decide,
          show (("ORIGINAL" : String) == "ORIGINAL") = true by decide,
          show (("ORGCRD" : String) == "ORIGINAL") = false by decide,
          show (("ORGPRD" : String) == "ORIGINAL") = false by decide,
          show (("REJECTDUP" : String) == "ORIGINAL") = false by decide,
          show (("PULPDUP" : String) == "ORIGINAL") = false by decide,
          show (("CRD" : String) == "ORIGINAL") = false by decide,
          show (("PRD" : String) == "ORIGINAL") = false by decide,
          show (("ORGCRD" : String) == "ORGCRD") = true by decide,
          show (("ORGPRD" : String) == "ORGCRD") = false by decide,
          show (("REJECTDUP" : String) == "ORGCRD") = false by decide,
          show (("PULPDUP" : String) == "ORGCRD") = false by decide,
          show (("CRD" : String) == "ORGCRD") = false by decide,
          show (("PRD" : String) == "ORGCRD") = false by decide,
          show (("ORGPRD" : String) == "ORGPRD") = true by decide,
          show (("REJECTDUP" : String) == "ORGPRD") = false by decide,
          show (("PULPDUP" : String) == "ORGPRD") = false by decide,
          show (("CRD" : String) == "ORGPRD") = false by decide,
          show (("PRD" : String) == "ORGPRD") = false by decide,
          show (("REJECTDUP" : String) == "REJECTDUP") = true by decide,
          show (("PULPDUP" : String) == "REJECTDUP") = false by decide,
          show (("CRD" : String) == "REJECTDUP") = false by decide,
          show (("PRD" : String) == "REJECTDUP") = false by decide,
          show (("PULPDUP" : String) == "PULPDUP") = true by decide,
          show (("CRD" : String) == "PULPDUP") = false by decide,
          show (("PRD" : String) == "PULPDUP") = false by decide,
          show (("CRD" : String) == "CRD") = true by decide,
          show (("PRD" : String) == "CRD") = false by decide,
          show (("PRD" : String) == "PRD") = true by decide,
          Bool.or_self, Bool.or_true, Bool.true_or, Bool.or_false, Bool.false_or,
          if_true, if_false, hparse, Bool.false_eq_true] <;>
        exact classify_eq_spec _ _ (trackHighest_spec _ _) _ _

/-- C3 counterexample: REJECTDUP row value 121 against its ORIGINAL
sibling value 100.  The source normalises by the ORIGINAL value
(|121-100|/100 = 21% > 20% high), while the claimed formula normalises by
the classified row's own value (|121-100|/121 = 17.4% which is medium), so
the claim as stated is false. -/
theorem c3_variance_normalization_counterexample :
    getResultCellFormattingClass (some exPayVariance) exColResult
      (some (JSVal.num 121)) (some 1) = "cell-variance-dup-high" ∧
    varianceClassSpec true (some exPayVariance) exColResult
      (some (JSVal.num 121)) (some 1) = "cell-variance-dup-medium" ∧
    ("cell-variance-dup-high" : String) ≠ "cell-variance-dup-medium" := by
  have hfind : exPayVariance.rows.find? (fun r => r.rowIndex == 1) =
      some exRowRejectDup := by decide
  have hct : upperCT exRowRejectDup = "REJECTDUP" := by decide
  have hmatch : matchingRowsDup exPayVariance.rows exRowRejectDup =
      [exRowOriginal] := by decide
  have hsib : sibParsedValue exRowOriginal exColResult.columnIndex =
      some 100 := by decide
  have hcol : (exColResult.columnType != ColumnType.result) = false := by decide
  have hv1 : jsVariance 121 100 100 = VarianceVal.fin 21 := by
    unfold jsVariance
    rw [if_neg (by norm_num)]
    norm_num
  have hv2 : jsVariance 121 100 121 = VarianceVal.fin (2100/121) := by
    unfold jsVariance
    rw [if_neg (by norm_num)]
    norm_num
  refine ⟨?_, ?_, by decide⟩
  · simp only [getResultCellFormattingClass, hcol, hfind, hct, hmatch, hsib,
      Bool.false_eq_true, if_false,
      show (("REJECTDUP" : String) == "CRM") = false by decide,
      show (("REJECTDUP" : String) == "ORIGINAL") = false by decide,
      show (("REJECTDUP" : String) == "ORGCRD") = false by decide,
      show (("REJECTDUP" : String) == "ORGPRD") = false by decide,
      show (("REJECTDUP" : String) == "REJECTDUP") = true by decide,
      show (("REJECTDUP" : String) == "PULPDUP") = false by decide,
      Bool.false_or, Bool.true_or, Bool.or_false, if_true, parseFloatV,
      trackHighest, List.map_cons, List.map_nil, List.foldl_cons,
      List.foldl_nil, hv1, VARIANCE_THRESHOLDS]
    rw [show jsGt (VarianceVal.fin 21) (VarianceVal.fin 0) = true by norm_num [jsGt],
      if_pos rfl,
      show jsGt (VarianceVal.fin 21) (VarianceVal.fin 20) = true by norm_num [jsGt],
      if_pos rfl]
    decide
  · simp only [varianceClassSpec, hcol, hfind, hct, hmatch, hsib,
      Bool.false_eq_true, if_false,
      show (("REJECTDUP" : String) == "ORIGINAL") = false by decide,
      show (("REJECTDUP" : String) == "ORGCRD") = false by decide,
      show (("REJECTDUP" : String) == "ORGPRD") = false by decide,
      show (("REJECTDUP" : String) == "REJECTDUP") = true by decide,
      show (("REJECTDUP" : String) == "PULPDUP") = false by decide,
      Bool.false_or, Bool.true_or, Bool.or_false, if_true, parseFloatV,
      specVariances, maxVarianceW, classifyByThreshold, List.map_cons,
      List.map_nil, List.filterMap_cons, List.filterMap_nil, Option.some_bind,
      hv2, toWTop, List.foldl_cons, List.foldl_nil, VARIANCE_THRESHOLDS]
    rw [show max ((0 : ℚ) : WithTop ℚ) ((2100/121 : ℚ) : WithTop ℚ) =
        ((2100/121 : ℚ) : WithTop ℚ) from
        max_eq_right (by exact_mod_cast (by norm_num : (0 : ℚ) ≤ 2100/121)),
      if_neg (show ¬(((20 : ℚ) : WithTop ℚ) < ((2100/121 : ℚ) : WithTop ℚ)) from
        by exact_mod_cast (by norm_num : ¬((20 : ℚ) < 2100/121))),
      if_pos (show ((10 : ℚ) : WithTop ℚ) < ((2100/121 : ℚ) : WithTop ℚ) from
        by exact_mod_cast (by norm_num : (10 : ℚ) < 2100/121))]
    decide

/-- C3 witness for the amended theorem: at the concrete REJECTDUP row the
source classifier and the original-normalised spec classifier agree. -/
theorem c3_variance_normalized_witness :
    (exPayVariance.rows.find? (fun r => r.rowIndex == 1) = some exRowRejectDup) ∧
    getResultCellFormattingClass (some exPayVariance) exColResult
        (some (JSVal.num 121)) (some 1) =
      varianceClassSpec false (some exPayVariance) exColResult
        (some (JSVal.num 121)) (some 1) :=
  ⟨by decide,
    c3_variance_normalized_against_original exPayVariance exColResult
      (some (JSVal.num 121)) 1 exRowRejectDup (by decide)
      (Or.inr (Or.inr (Or.inr (Or.inl (by decide)))))⟩
/-! ## Claim C9: stability of `originalValue` across mutation sequences -/

/-- Both branches of the notification tail leave `data` untouched. -/
theorem notifyRowChanged_data (s : StoreState) (r : Nat) :
    (notifyRowChanged s r).data = s.data := by
  unfold notifyRowChanged
  split <;> rfl

/-- `applyManualCorrection` never changes a cell's `columnIndex`. -/
theorem applyManualCorrection_columnIndex (b m : Option ℚ) (cell : CellValue) :
    (applyManualCorrection b m cell).columnIndex = cell.columnIndex := by
  unfold applyManualCorrection
  cases b <;> cases m <;> dsimp only <;> (repeat' split) <;> rfl

/-- `applyManualCorrection` snapshots `originalValue` only when it is
absent: an already-set `originalValue` is kept verbatim. -/
theorem applyManualCorrection_originalValue (b m : Option ℚ) (cell : CellValue)
    (v : ℚ) (h : cell.originalValue = some v) :
    (applyManualCorrection b m cell).originalValue = some v := by
  unfold applyManualCorrection
  cases b <;> cases m <;> dsimp only <;> (repeat' split) <;> simp_all

/-- `cellAt` through an explicit `data` equation. -/
theorem cellAt_eq_of_data (s : StoreState) (ref : Nat)
    (p : OptimizedDataTablePayload) (h : s.data = some (ref, p)) (r c : Nat) :
    cellAt s r c =
      (p.rows.find? (fun row => row.rowIndex == r)).bind
        (fun row => findCell row c) := by
  unfold cellAt
  rw [h]
  rfl

/-- `data` after `setCellValue` when the row resolves. -/
theorem setCellValue_data_found (s : StoreState) (ref : Nat)
    (p : OptimizedDataTablePayload) (hdata : s.data = some (ref, p))
    (r' c' : Nat) (v' : JSVal) (src : Option String) (row : RowData)
    (hrow : p.rows.find? (fun rw => rw.rowIndex == r') = some row) :
    (setCellValue s r' c' v' src).data = some (ref,
      if c' ∈ cellKeysFor s r' row then
        updateRow p r' (fun rw =>
          { rw with values := updateFirstCell rw.values c' (fun cell =>
              let cell := { cell with value := some v' }
              match src with
              | some srcCode => { cell with copiedFrom := some srcCode }
              | none => cell) })
      else
        updateRow p r' (fun rw =>
          { rw with values := rw.values ++
              [{ columnIndex := c', value := some v',
                 copiedFrom := src }] })) := by
  simp only [setCellValue, hdata, hrow, notifyRowChanged_data]

/-- `data` after `markResultCellFinal` when the row resolves. -/
theorem markResultCellFinal_data_found (s : StoreState) (ref : Nat)
    (p : OptimizedDataTablePayload) (hdata : s.data = some (ref, p))
    (r' c' : Nat) (row : RowData)
    (hrow : p.rows.find? (fun rw => rw.rowIndex == r') = some row) :
    (markResultCellFinal s r' c').data = some (ref,
      if c' ∈ cellKeysFor s r' row then
        updateRow p r' (fun rw =>
          { rw with values := updateFirstCell rw.values c' (fun cell =>
              { cell with isFinal := some true, markedFinalAt := some s.now }) })
      else if isEmptyVal (getCellValueByIndex (markCachePrimed s r' row) r' c').1 then
        p
      else
        updateRow p r' (fun rw =>
          { rw with values := rw.values ++
              [{ columnIndex := c',
                 value := (getCellValueByIndex (markCachePrimed s r' row) r' c').1,
                 isFinal := some true, markedFinalAt := some s.now }] })) := by
  have hres : ((getCellValueByIndex (markCachePrimed s r' row) r' c').2).data =
      some (ref, p) := by
    rw [(getCellValueByIndex_preserves (markCachePrimed s r' row) r' c').1]
    exact hdata
  simp only [markResultCellFinal, hdata, hrow, notifyRowChanged_data,
    apply_ite StoreState.data, hres]
  split
  · rfl
  · split <;> rfl

/-- `data` after `clearResultCell` when the row resolves. -/
theorem clearResultCell_data_found (s : StoreState) (ref : Nat)
    (p : OptimizedDataTablePayload) (hdata : s.data = some (ref, p))
    (r' c' : Nat) (row : RowData)
    (hrow : p.rows.find? (fun rw => rw.rowIndex == r') = some row) :
    (clearResultCell s r' c').data = some (ref,
      updateRow p r' (fun rw =>
        { rw with values :=
            rw.values.filter (fun cell => cell.columnIndex != c') })) := by
  simp only [clearResultCell, hdata, hrow, notifyRowChanged_data]

/-- `data` after `setManualCorrection` when the row resolves. -/
theorem setManualCorrection_data_found (s : StoreState) (ref : Nat)
    (p : OptimizedDataTablePayload) (hdata : s.data = some (ref, p))
    (r' c' : Nat) (b m : Option ℚ) (row : RowData)
    (hrow : p.rows.find? (fun rw => rw.rowIndex == r') = some row) :
    (setManualCorrection s r' c' b m).data = some (ref,
      if c' ∈ cellKeysFor s r' row then
        updateRow p r' (fun rw =>
          { rw with values := updateFirstCell rw.values c' (applyManualCorrection b m) })
      else
        updateRow p r' (fun rw =>
          { rw with values := rw.values ++
              [applyManualCorrection b m
                { columnIndex := c', value := none }] })) := by
  simp only [setManualCorrection, hdata, hrow, notifyRowChanged_data,
    apply_ite StoreState.data]
  split <;> rfl

/-- Reading a cell of a row untouched by `updateRow`, or of the patched
row, through `find?`. -/
theorem cellAt_after_update (s' : StoreState) (ref : Nat)
    (p : OptimizedDataTablePayload) (r' : Nat) (f : RowData → RowData)
    (hdata' : s'.data = some (ref, updateRow p r' f))
    (hf : ∀ row, (f row).rowIndex = row.rowIndex)
    (r c : Nat) (row0 : RowData)
    (hrow0 : p.rows.find? (fun row => row.rowIndex == r) = some row0) :
    cellAt s' r c = findCell (if row0.rowIndex = r' then f row0 else row0) c := by
  rw [cellAt_eq_of_data s' ref (updateRow p r' f) hdata' r c,
    find?_rows_updateRow p r' f r hf, hrow0]
  by_cases h : row0.rowIndex = r' <;> simp [h]

/-- `originalValue` of the first matching cell survives an in-place patch
of a (possibly different) cell that keeps `columnIndex` and
`originalValue`. -/
theorem find?_updateFirstCell_ov (l : List CellValue) (c0 c : Nat)
    (f : CellValue → CellValue) (cell0 : CellValue) (v : ℚ)
    (hf : ∀ cell, (f cell).columnIndex = cell.columnIndex)
    (hfo : (f cell0).originalValue = some v)
    (h : l.find? (fun cell => cell.columnIndex == c) = some cell0)
    (hov : cell0.originalValue = some v) :
    ((updateFirstCell l c0 f).find? (fun cell => cell.columnIndex == c)).bind
      (fun cell => cell.originalValue) = some v := by
  rw [find?_updateFirstCell l c0 c f hf]
  by_cases hcc : c = c0
  · rw [if_pos hcc, h]
    simpa using hfo
  · rw [if_neg hcc, h]
    simpa using hov

/-- `originalValue` of the first matching cell survives appending new cells
at the end of the sparse values list. -/
theorem find?_append_ov (l tail : List CellValue) (c : Nat)
    (cell0 : CellValue) (v : ℚ)
    (h : l.find? (fun cell => cell.columnIndex == c) = some cell0)
    (hov : cell0.originalValue = some v) :
    (((l ++ tail).find? (fun cell => cell.columnIndex == c)).bind
      (fun cell => cell.originalValue)) = some v := by
  rw [List.find?_append, h]
  simpa using hov

/-- One mutation-API call never overwrites a set `originalValue` as long as
the cell still resolves afterwards. -/
theorem cellAt_originalValue_step (s : StoreState) (r c : Nat) (v : ℚ)
    (op : MutationOp)
    (h0 : (cellAt s r c).bind (fun cell => cell.originalValue) = some v)
    (hx : (cellAt (applyMutation s op) r c).isSome = true) :
    (cellAt (applyMutation s op) r c).bind
      (fun cell => cell.originalValue) = some v := by
  rcases Option.bind_eq_some.mp h0 with ⟨cell0, hc0, hov⟩
  obtain ⟨ref, p, hdata⟩ : ∃ ref p, s.data = some (ref, p) := by
    rcases hs : s.data with _ | ⟨ref, p⟩
    · exfalso
      unfold cellAt at hc0
      rw [hs] at hc0
      simp at hc0
    · exact ⟨ref, p, rfl⟩
  have hc0' : (p.rows.find? (fun row => row.rowIndex == r)).bind
      (fun row => findCell row c) = some cell0 := by
    rw [← cellAt_eq_of_data s ref p hdata r c]
    exact hc0
  rcases Option.bind_eq_some.mp hc0' with ⟨row0, hrow0, hcell0⟩
  have hcell0f : row0.values.find? (fun cell => cell.columnIndex == c) =
      some cell0 := hcell0
  cases op with
  | startB =>
    simp only [applyMutation]
    rw [cellAt_congr s (startBatch s) r c rfl]
    exact h0
  | endB =>
    simp only [applyMutation]
    rw [cellAt_congr s (endBatch s) r c (by unfold endBatch; split <;> rfl)]
    exact h0
  | setCell r' c' v' src =>
    simp only [applyMutation] at hx ⊢
    cases hrowT : p.rows.find? (fun rw => rw.rowIndex == r') with
    | none =>
      have hid : setCellValue s r' c' v' src = s := by
        simp only [setCellValue, hdata, hrowT]
      rw [hid]
      exact h0
    | some rowT =>
      have hdall := setCellValue_data_found s ref p hdata r' c' v' src rowT hrowT
      by_cases hk : c' ∈ cellKeysFor s r' rowT
      · rw [if_pos hk] at hdall
        rw [cellAt_after_update _ ref p r' _ hdall (fun row => rfl) r c row0 hrow0]
        by_cases hrr : row0.rowIndex = r'
        · rw [if_pos hrr]
          simp only [findCell]
          exact find?_updateFirstCell_ov _ c' c _ cell0 v
            (by intro cell; cases src <;> rfl)
            (by cases src <;> exact hov) hcell0f hov
        · rw [if_neg hrr, hcell0]
          simpa using hov
      · rw [if_neg hk] at hdall
        rw [cellAt_after_update _ ref p r' _ hdall (fun row => rfl) r c row0 hrow0]
        by_cases hrr : row0.rowIndex = r'
        · rw [if_pos hrr]
          simp only [findCell]
          exact find?_append_ov _ _ c cell0 v hcell0f hov
        · rw [if_neg hrr, hcell0]
          simpa using hov
  | markFinal r' c' =>
    simp only [applyMutation] at hx ⊢
    cases hrowT : p.rows.find? (fun rw => rw.rowIndex == r') with
    | none =>
      have hid : markResultCellFinal s r' c' = s := by
        simp only [markResultCellFinal, hdata, hrowT]
      rw [hid]
      exact h0
    | some rowT =>
      have hdall := markResultCellFinal_data_found s ref p hdata r' c' rowT hrowT
      by_cases hk : c' ∈ cellKeysFor s r' rowT
      · rw [if_pos hk] at hdall
        rw [cellAt_after_update _ ref p r' _ hdall (fun row => rfl) r c row0 hrow0]
        by_cases hrr : row0.rowIndex = r'
        · rw [if_pos hrr]
          simp only [findCell]
          exact find?_updateFirstCell_ov _ c' c _ cell0 v
            (fun cell => rfl) hov hcell0f hov
        · rw [if_neg hrr, hcell0]
          simpa using hov
      · rw [if_neg hk] at hdall
        by_cases he : isEmptyVal
            (getCellValueByIndex (markCachePrimed s r' rowT) r' c').1 = true
        · rw [if_pos he] at hdall
          rw [cellAt_eq_of_data _ ref p hdall r c, hrow0]
          simp only [Option.some_bind, hcell0]
          simpa using hov
        · rw [if_neg he] at hdall
          rw [cellAt_after_update _ ref p r' _ hdall (fun row => rfl) r c row0 hrow0]
          by_cases hrr : row0.rowIndex = r'
          · rw [if_pos hrr]
            simp only [findCell]
            exact find?_append_ov _ _ c cell0 v hcell0f hov
          · rw [if_neg hrr, hcell0]
            simpa using hov
  | clearCell r' c' =>
    simp only [applyMutation] at hx ⊢
    cases hrowT : p.rows.find? (fun rw => rw.rowIndex == r') with
    | none =>
      have hid : clearResultCell s r' c' = s := by
        simp only [clearResultCell, hdata, hrowT]
      rw [hid]
      exact h0
    | some rowT =>
      have hdall := clearResultCell_data_found s ref p hdata r' c' rowT hrowT
      have hA := cellAt_after_update _ ref p r' _ hdall (fun row => rfl) r c row0 hrow0
      rw [hA] at hx ⊢
      by_cases hrr : row0.rowIndex = r'
      · rw [if_pos hrr] at hx ⊢
        by_cases hcc : c = c'
        · exfalso
          subst hcc
          simp only [findCell, find?_filter_self] at hx
          simp at hx
        · simp only [findCell]
          rw [find?_filter_ne row0.values c' c hcc, hcell0f]
          simpa using hov
      · rw [if_neg hrr, hcell0]
        simpa using hov
  | setCorrection r' c' b m =>
    simp only [applyMutation] at hx ⊢
    cases hrowT : p.rows.find? (fun rw => rw.rowIndex == r') with
    | none =>
      have hid : setManualCorrection s r' c' b m = s := by
        simp only [setManualCorrection, hdata, hrowT]
      rw [hid]
      exact h0
    | some rowT =>
      have hdall := setManualCorrection_data_found s ref p hdata r' c' b m rowT hrowT
      by_cases hk : c' ∈ cellKeysFor s r' rowT
      · rw [if_pos hk] at hdall
        rw [cellAt_after_update _ ref p r' _ hdall (fun row => rfl) r c row0 hrow0]
        by_cases hrr : row0.rowIndex = r'
        · rw [if_pos hrr]
          simp only [findCell]
          exact find?_updateFirstCell_ov _ c' c _ cell0 v
            (applyManualCorrection_columnIndex b m)
            (applyManualCorrection_originalValue b m cell0 v hov)
            hcell0f hov
        · rw [if_neg hrr, hcell0]
          simpa using hov
      · rw [if_neg hk] at hdall
        rw [cellAt_after_update _ ref p r' _ hdall (fun row => rfl) r c row0 hrow0]
        by_cases hrr : row0.rowIndex = r'
        · rw [if_pos hrr]
          simp only [findCell]
          exact find?_append_ov _ _ c cell0 v hcell0f hov
        · rw [if_neg hrr, hcell0]
          simpa using hov

/-- C9: once a cell's `originalValue` is set, no sequence of mutation-API
calls ever overwrites it while the cell exists: after any sequence of
`setCellValue` / `markResultCellFinal` / `clearResultCell` /
`setManualCorrection` / `startBatch` / `endBatch` calls during which the
cell keeps resolving, the stored `originalValue` is still the original
baseline. -/
theorem c9_originalValue_stable (s : StoreState) (r c : Nat) (v : ℚ)
    (ops : List MutationOp)
    (h0 : (cellAt s r c).bind (fun cell => cell.originalValue) = some v)
    (hex : ∀ n, n ≤ ops.length →
      (cellAt (applyMutations s (ops.take n)) r c).isSome = true) :
    (cellAt (applyMutations s ops) r c).bind
      (fun cell => cell.originalValue) = some v := by
  induction ops generalizing s with
  | nil => simpa [applyMutations] using h0
  | cons op rest ih =>
    have h1 : (cellAt (applyMutation s op) r c).isSome = true := by
      have h := hex 1 (by simp)
      simpa [applyMutations] using h
    have hstep := cellAt_originalValue_step s r c v op h0 h1
    have hex' : ∀ n, n ≤ rest.length →
        (cellAt (applyMutations (applyMutation s op) (rest.take n)) r c).isSome
          = true := by
      intro n hn
      have h := hex (n + 1) (by simpa using Nat.succ_le_succ hn)
      simpa [applyMutations, List.take_succ_cons] using h
    have hfold : applyMutations s (op :: rest) =
        applyMutations (applyMutation s op) rest := by
      simp [applyMutations]
    rw [hfold]
    exact ih (applyMutation s op) hstep hex'

/-- Witness for C9: the corrected example cell keeps `originalValue = 10`
across a whole mixed mutation sequence targeting it and its row. -/
theorem c9_originalValue_stable_witness :
    (cellAt (applyMutations (mkLoadedState exPayCorrected)
        [MutationOp.setCell 0 5 (JSVal.num 7) none,
         MutationOp.startB,
         MutationOp.markFinal 0 5,
         MutationOp.endB,
         MutationOp.setCorrection 0 5 (some 1) none]) 0 5).bind
      (fun cell => cell.originalValue) = some 10 :=
  c9_originalValue_stable (mkLoadedState exPayCorrected) 0 5 10
    [MutationOp.setCell 0 5 (JSVal.num 7) none,
     MutationOp.startB,
     MutationOp.markFinal 0 5,
     MutationOp.endB,
     MutationOp.setCorrection 0 5 (some 1) none]
    (by decide)
    (by
      intro n hn
      have hn5 : n ≤ 5 := by simpa using hn
      interval_cases n <;> decide)
/-! ## Claim C2: batching collapses invalidation signals -/

/-- With the dataset loaded, the row resolved, and the column present in
the key list the call will use, `markResultCellFinal` takes the direct mark
path: its whole effect on the signalling state is one `notifyRowChanged`
(pending set during a batch, `changedRowIndices` plus one trigger
otherwise). -/
theorem markFinal_ready_effects (s : StoreState) (r c : Nat)
    (h : markReady s r c = true) :
    (markResultCellFinal s r c).isBatching = s.isBatching ∧
    (markResultCellFinal s r c).triggerCount =
      (if s.isBatching then s.triggerCount else s.triggerCount + 1) ∧
    (markResultCellFinal s r c).batchChangedRows =
      (if s.isBatching then addToSet s.batchChangedRows r
       else s.batchChangedRows) ∧
    (markResultCellFinal s r c).changedRowIndices =
      (if s.isBatching then s.changedRowIndices
       else addToSet s.changedRowIndices r) := by
  cases hdata : s.data with
  | none =>
    exfalso
    simp only [markReady, hdata] at h
    exact Bool.false_ne_true h
  | some d =>
    obtain ⟨ref, p⟩ := d
    cases hfind : p.rows.find? (fun row => row.rowIndex == r) with
    | none =>
      exfalso
      simp only [markReady, hdata, hfind] at h
      exact Bool.false_ne_true h
    | some row =>
      simp only [markReady, hdata, hfind, decide_eq_true_eq] at h
      simp only [markResultCellFinal, hdata, hfind, if_pos h]
      by_cases hb : s.isBatching = true
      · simp [notifyRowChanged, markCachePrimed, hb]
      · rw [Bool.not_eq_true] at hb
        simp [notifyRowChanged, markCachePrimed, hb]

/-- Folding ready `markResultCellFinal` calls while batching: no signal
fires, `changedRowIndices` is untouched, and the pending set accumulates
exactly the marked row indices. -/
theorem applyMarks_batching (s : StoreState) (targets : List (Nat × Nat))
    (hb : s.isBatching = true)
    (hready : ∀ n, (hn : n < targets.length) →
      markReady (applyMarks s (targets.take n)) (targets.get ⟨n, hn⟩).1
        (targets.get ⟨n, hn⟩).2 = true) :
    (applyMarks s targets).isBatching = true ∧
    (applyMarks s targets).triggerCount = s.triggerCount ∧
    (applyMarks s targets).changedRowIndices = s.changedRowIndices ∧
    (∀ x, x ∈ (applyMarks s targets).batchChangedRows ↔
      x ∈ s.batchChangedRows ∨ x ∈ targets.map Prod.fst) := by
  induction targets generalizing s with
  | nil => simp [applyMarks, hb]
  | cons t ts ih =>
    have h0 : markReady s t.1 t.2 = true := by
      have h := hready 0 (by simp)
      simpa [applyMarks] using h
    have heff := markFinal_ready_effects s t.1 t.2 h0
    simp only [hb, if_true] at heff
    have hready' : ∀ n, (hn : n < ts.length) →
        markReady (applyMarks (markResultCellFinal s t.1 t.2) (ts.take n))
          (ts.get ⟨n, hn⟩).1 (ts.get ⟨n, hn⟩).2 = true := by
      intro n hn
      have h := hready (n + 1) (by simpa using Nat.succ_lt_succ hn)
      simpa [applyMarks, List.take_succ_cons, List.get_cons_succ] using h
    have hrec := ih (markResultCellFinal s t.1 t.2) heff.1 hready'
    have happ : applyMarks s (t :: ts) =
        applyMarks (markResultCellFinal s t.1 t.2) ts := by
      simp [applyMarks]
    rw [happ]
    refine ⟨hrec.1, hrec.2.1.trans heff.2.1, hrec.2.2.1.trans heff.2.2.2, ?_⟩
    intro x
    rw [hrec.2.2.2 x, heff.2.2.1]
    simp only [mem_addToSet, List.map_cons, List.mem_cons]
    tauto

/-- Folding ready `markResultCellFinal` calls outside a batch: every call
fires its own invalidation signal. -/
theorem applyMarks_unbatched (s : StoreState) (targets : List (Nat × Nat))
    (hb : s.isBatching = false)
    (hready : ∀ n, (hn : n < targets.length) →
      markReady (applyMarks s (targets.take n)) (targets.get ⟨n, hn⟩).1
        (targets.get ⟨n, hn⟩).2 = true) :
    (applyMarks s targets).isBatching = false ∧
    (applyMarks s targets).triggerCount = s.triggerCount + targets.length := by
  induction targets generalizing s with
  | nil => simp [applyMarks, hb]
  | cons t ts ih =>
    have h0 : markReady s t.1 t.2 = true := by
      have h := hready 0 (by simp)
      simpa [applyMarks] using h
    have heff := markFinal_ready_effects s t.1 t.2 h0
    simp only [hb, Bool.false_eq_true, if_false] at heff
    have hready' : ∀ n, (hn : n < ts.length) →
        markReady (applyMarks (markResultCellFinal s t.1 t.2) (ts.take n))
          (ts.get ⟨n, hn⟩).1 (ts.get ⟨n, hn⟩).2 = true := by
      intro n hn
      have h := hready (n + 1) (by simpa using Nat.succ_lt_succ hn)
      simpa [applyMarks, List.take_succ_cons, List.get_cons_succ] using h
    have hrec := ih (markResultCellFinal s t.1 t.2) heff.1 hready'
    have happ : applyMarks s (t :: ts) =
        applyMarks (markResultCellFinal s t.1 t.2) ts := by
      simp [applyMarks]
    rw [happ]
    refine ⟨hrec.1, ?_⟩
    rw [hrec.2, heff.2.1]
    simp only [List.length_cons]
    omega

/-- C2: N ready `markResultCellFinal` calls between one `startBatch` and
its `endBatch` issue exactly one invalidation signal (the trigger count
rises by one, at `endBatch`), and the pending changed rows are merged into
`changedRowIndices`; the same N calls outside any batch issue N signals. -/
theorem c2_batching_collapses_signals (s : StoreState)
    (targets : List (Nat × Nat))
    (hnb : s.isBatching = false)
    (hreadyB : ∀ n, (hn : n < targets.length) →
      markReady (applyMarks (startBatch s) (targets.take n))
        (targets.get ⟨n, hn⟩).1 (targets.get ⟨n, hn⟩).2 = true)
    (hreadyU : ∀ n, (hn : n < targets.length) →
      markReady (applyMarks s (targets.take n))
        (targets.get ⟨n, hn⟩).1 (targets.get ⟨n, hn⟩).2 = true) :
    (applyMarks (startBatch s) targets).triggerCount = s.triggerCount ∧
    (endBatch (applyMarks (startBatch s) targets)).triggerCount =
      s.triggerCount + 1 ∧
    (∀ x, x ∈ (endBatch (applyMarks (startBatch s) targets)).changedRowIndices ↔
      x ∈ s.changedRowIndices ∨ x ∈ targets.map Prod.fst) ∧
    (applyMarks s targets).triggerCount = s.triggerCount + targets.length := by
  have hB := applyMarks_batching (startBatch s) targets rfl hreadyB
  have hU := applyMarks_unbatched s targets hnb hreadyU
  have hendTc : (endBatch (applyMarks (startBatch s) targets)).triggerCount =
      (applyMarks (startBatch s) targets).triggerCount + 1 := by
    simp [endBatch, hB.1]
  have hendCr : ∀ x,
      x ∈ (endBatch (applyMarks (startBatch s) targets)).changedRowIndices ↔
        x ∈ (applyMarks (startBatch s) targets).changedRowIndices ∨
          x ∈ (applyMarks (startBatch s) targets).batchChangedRows := by
    intro x
    simp [endBatch, hB.1, mem_foldl_addToSet]
  refine ⟨hB.2.1.trans rfl, ?_, ?_, hU.2⟩
  · rw [hendTc, hB.2.1]
    rfl
  · intro x
    rw [hendCr x, hB.2.2.1, hB.2.2.2 x]
    simp [startBatch]

/-- Witness for C2: two ready marks on the example payload fire no signal
inside the batch, one signal at `endBatch` (merging row `0` into
`changedRowIndices`), and two signals outside a batch. -/
theorem c2_batching_collapses_signals_witness :
    (applyMarks (startBatch (mkLoadedState exPayTen))
        [(0, 5), (0, 5)]).triggerCount = (mkLoadedState exPayTen).triggerCount ∧
    (endBatch (applyMarks (startBatch (mkLoadedState exPayTen))
        [(0, 5), (0, 5)])).triggerCount =
      (mkLoadedState exPayTen).triggerCount + 1 ∧
    (∀ x, x ∈ (endBatch (applyMarks (startBatch (mkLoadedState exPayTen))
          [(0, 5), (0, 5)])).changedRowIndices ↔
        x ∈ (mkLoadedState exPayTen).changedRowIndices ∨
          x ∈ ([(0, 5), (0, 5)] : List (Nat × Nat)).map Prod.fst) ∧
    (applyMarks (mkLoadedState exPayTen) [(0, 5), (0, 5)]).triggerCount =
      (mkLoadedState exPayTen).triggerCount + [(0, 5), (0, 5)].length :=
  c2_batching_collapses_signals (mkLoadedState exPayTen) [(0, 5), (0, 5)] rfl
    (by
      intro n hn
      have hn2 : n < 2 := by simpa using hn
      interval_cases n
      · exact (by decide :
          markReady (applyMarks (startBatch (mkLoadedState exPayTen))
            (List.take 0 [((0 : Nat), (5 : Nat)), (0, 5)])) 0 5 = true)
      · exact (by decide :
          markReady (applyMarks (startBatch (mkLoadedState exPayTen))
            (List.take 1 [((0 : Nat), (5 : Nat)), (0, 5)])) 0 5 = true))
    (by
      intro n hn
      have hn2 : n < 2 := by simpa using hn
      interval_cases n
      · exact (by decide :
          markReady (applyMarks (mkLoadedState exPayTen)
            (List.take 0 [((0 : Nat), (5 : Nat)), (0, 5)])) 0 5 = true)
      · exact (by decide :
          markReady (applyMarks (mkLoadedState exPayTen)
            (List.take 1 [((0 : Nat), (5 : Nat)), (0, 5)])) 0 5 = true))
end DataGrid
